import Mathlib

/-!
# 3D scene: texture registry, shading-state bridge and view controller

A shallow embedding of `FinalProject/Source/SceneManager.cpp` and
`FinalProject/Source/ViewManager.cpp`.

* C++ `float`/`double` values are taken from an arbitrary scalar type `α`
  (instantiated with `ℚ` or `ℝ` in the theorems): the development is about
  exact arithmetic, not about IEEE rounding. The one exception is the mouse
  callback, which mixes `double` samples with `float` globals: there the
  values are rationals and every conversion and `double` operation rounds as
  IEEE 754 prescribes.
* The object state of `SceneManager` is an explicit record that every member
  function receives and returns.
* Results of external calls (`stbi_load`, `glGenTextures`) are inputs of the
  embedded function.
-/

set_option autoImplicit false
set_option linter.unusedVariables false

namespace SceneMod

/-! ## GLM value types -/

/-- The type `glm::vec2`. -/
structure vec2 (α : Type) where
  x : α
  y : α
deriving DecidableEq, Repr

/-- The type `glm::vec3`. -/
structure vec3 (α : Type) where
  x : α
  y : α
  z : α
deriving DecidableEq, Repr

/-- The type `glm::vec4`; the colour accessors `r g b a` alias `x y z w`. -/
structure vec4 (α : Type) where
  x : α
  y : α
  z : α
  w : α
deriving DecidableEq, Repr

/-- The type `glm::mat4`, stored column by column: `m[c]` is column `c`. -/
structure mat4 (α : Type) where
  c0 : vec4 α
  c1 : vec4 α
  c2 : vec4 α
  c3 : vec4 α
deriving DecidableEq, Repr

/-! ## Shader uniform state -/

/-- A value held by one named shader uniform. -/
inductive UniformValue (α : Type) where
  | intVal (v : Int)
  | boolVal (v : Bool)
  | floatVal (v : α)
  | vec2Val (v : vec2 α)
  | vec3Val (v : vec3 α)
  | vec4Val (v : vec4 α)
  | mat4Val (v : mat4 α)
  | sampler2DVal (v : Int)
deriving DecidableEq, Repr

/-- Modelled from the spec: the class `ShaderManager` is not part of the
sources at hand. Following section 4.2 ("each a one-way write into the active
shader's uniform state") it is the table of named uniforms, and every
`setXValue(name, v)` overwrites the entry `name`. -/
structure ShaderManager (α : Type) where
  uniforms : String → Option (UniformValue α)

namespace ShaderManager

variable {α : Type}

/-- Overwrite one named uniform, leaving all others as they were. -/
def write (s : ShaderManager α) (name : String) (v : UniformValue α) : ShaderManager α :=
  { uniforms := fun n => if n = name then some v else s.uniforms n }

def setIntValue (s : ShaderManager α) (name : String) (v : Int) : ShaderManager α :=
  s.write name (.intVal v)

def setBoolValue (s : ShaderManager α) (name : String) (v : Bool) : ShaderManager α :=
  s.write name (.boolVal v)

def setFloatValue (s : ShaderManager α) (name : String) (v : α) : ShaderManager α :=
  s.write name (.floatVal v)

def setVec2Value (s : ShaderManager α) (name : String) (v : vec2 α) : ShaderManager α :=
  s.write name (.vec2Val v)

def setVec3Value (s : ShaderManager α) (name : String) (v : vec3 α) : ShaderManager α :=
  s.write name (.vec3Val v)

def setVec4Value (s : ShaderManager α) (name : String) (v : vec4 α) : ShaderManager α :=
  s.write name (.vec4Val v)

def setMat4Value (s : ShaderManager α) (name : String) (v : mat4 α) : ShaderManager α :=
  s.write name (.mat4Val v)

def setSampler2DValue (s : ShaderManager α) (name : String) (v : Int) : ShaderManager α :=
  s.write name (.sampler2DVal v)

end ShaderManager

/-! ## Scene manager state -/

/-- One element of `m_textureIDs`: a tag and the OpenGL texture handle. -/
structure TEXTURE_INFO where
  tag : String
  ID : Nat
deriving DecidableEq, Repr, Inhabited

/-- One element of `m_objectMaterials`. -/
structure OBJECT_MATERIAL (α : Type) where
  ambientColor : vec3 α
  ambientStrength : α
  diffuseColor : vec3 α
  specularColor : vec3 α
  shininess : α
  tag : String
deriving DecidableEq, Repr

/-- The data members of `SceneManager` that the embedded functions use.
`m_pShaderManager` is a pointer (`none` is `NULL`); `m_textureIDs` is the
fixed-capacity array (its length is the capacity) of which the first
`m_loadedTextures` elements are the registered textures; `m_objectMaterials`
is the `std::vector` of materials. Reading `m_textureIDs` past its capacity
(possible only when `m_loadedTextures` exceeds it) yields `default`. The
`int` counter `m_loadedTextures` only ever counts up from zero and is a
natural number here. -/
structure SceneManager (α : Type) where
  m_pShaderManager : Option (ShaderManager α)
  m_textureIDs : List TEXTURE_INFO
  m_loadedTextures : Nat
  m_objectMaterials : List (OBJECT_MATERIAL α)

variable {α : Type}

/-- The registered textures: the first `m_loadedTextures` array elements. -/
def SceneManager.registry (sm : SceneManager α) : List TEXTURE_INFO :=
  sm.m_textureIDs.take sm.m_loadedTextures

/-- The uniform `name` of the attached shader (`none` when there is no
shader or the uniform was never written). -/
def SceneManager.uniform (sm : SceneManager α) (name : String) : Option (UniformValue α) :=
  match sm.m_pShaderManager with
  | some s => s.uniforms name
  | none => none

/-! ## Texture registry lookups -/

/-- The conversion of a `GLuint` texture handle to `int`, as in the
assignment `textureID = m_textureIDs[index].ID`: the same 32-bit word read as
a signed number. -/
def intOfGLuint (u : Nat) : Int :=
  if u % 2 ^ 32 < 2 ^ 31 then ((u % 2 ^ 32 : Nat) : Int) else ((u % 2 ^ 32 : Nat) : Int) - 2 ^ 32

/-- The `while` loop of `FindTextureID`, on its three local variables. -/
def FindTextureID.loop (sm : SceneManager α) (tag : String)
    (textureID : Int) (index : Nat) (bFound : Bool) : Int :=
  if index < sm.m_loadedTextures ∧ bFound = false then
    if (sm.m_textureIDs.getD index default).tag = tag then
      FindTextureID.loop sm tag (intOfGLuint (sm.m_textureIDs.getD index default).ID) index true
    else
      FindTextureID.loop sm tag textureID (index + 1) bFound
  else
    textureID
termination_by (sm.m_loadedTextures - index) + (if bFound = false then 1 else 0)
decreasing_by
  all_goals simp_wf
  all_goals first
    | omega
    | simp_all

/-- `SceneManager::FindTextureID`. -/
def FindTextureID (sm : SceneManager α) (tag : String) : Int :=
  FindTextureID.loop sm tag (-1) 0 false

/-- The `while` loop of `FindTextureSlot`, on its three local variables. -/
def FindTextureSlot.loop (sm : SceneManager α) (tag : String)
    (textureSlot : Int) (index : Nat) (bFound : Bool) : Int :=
  if index < sm.m_loadedTextures ∧ bFound = false then
    if (sm.m_textureIDs.getD index default).tag = tag then
      FindTextureSlot.loop sm tag (index : Int) index true
    else
      FindTextureSlot.loop sm tag textureSlot (index + 1) bFound
  else
    textureSlot
termination_by (sm.m_loadedTextures - index) + (if bFound = false then 1 else 0)
decreasing_by
  all_goals simp_wf
  all_goals first
    | omega
    | simp_all

/-- `SceneManager::FindTextureSlot`. -/
def FindTextureSlot (sm : SceneManager α) (tag : String) : Int :=
  FindTextureSlot.loop sm tag (-1) 0 false

/-! ## Loading a texture -/

/-- What `stbi_load` reports of an image it decoded. -/
structure DecodedImage where
  width : Int
  height : Int
  colorChannels : Int
deriving DecidableEq, Repr

/-- The registration at the end of `CreateGLTexture`: the two stores into
`m_textureIDs[m_loadedTextures]` and the increment. A store past the capacity
of the array has no defined result (`none`). -/
def CreateGLTexture.register (sm : SceneManager α) (textureID : Nat) (tag : String) :
    Option (Bool × SceneManager α) :=
  if sm.m_loadedTextures < sm.m_textureIDs.length then
    some (true,
      { sm with
        m_textureIDs := sm.m_textureIDs.set sm.m_loadedTextures { tag := tag, ID := textureID }
        m_loadedTextures := sm.m_loadedTextures + 1 })
  else
    none

/-- `SceneManager::CreateGLTexture`. The file system and decoder are the
function `stbi_load` (`none` is the null pointer), and `glGenTextures` is the
handle that OpenGL hands out for the new texture object. -/
def CreateGLTexture (stbi_load : String → Option DecodedImage) (glGenTextures : Nat)
    (sm : SceneManager α) (filename : String) (tag : String) : Option (Bool × SceneManager α) :=
  match stbi_load filename with
  | some image =>
    let textureID := glGenTextures
    if image.colorChannels = 3 then
      CreateGLTexture.register sm textureID tag
    else if image.colorChannels = 4 then
      CreateGLTexture.register sm textureID tag
    else
      some (false, sm)
  | none => some (false, sm)

/-! ## Materials -/

/-- The `while` loop of `FindMaterial`, on the output parameter `material`
and the two local variables. -/
def FindMaterial.loop (sm : SceneManager α) (tag : String)
    (material : OBJECT_MATERIAL α) (index : Nat) (bFound : Bool) : OBJECT_MATERIAL α :=
  if h : index < sm.m_objectMaterials.length ∧ bFound = false then
    have hi : index < sm.m_objectMaterials.length := h.1
    if sm.m_objectMaterials[index].tag = tag then
      FindMaterial.loop sm tag
        { material with
          ambientColor := sm.m_objectMaterials[index].ambientColor
          ambientStrength := sm.m_objectMaterials[index].ambientStrength
          diffuseColor := sm.m_objectMaterials[index].diffuseColor
          specularColor := sm.m_objectMaterials[index].specularColor
          shininess := sm.m_objectMaterials[index].shininess }
        index true
    else
      FindMaterial.loop sm tag material (index + 1) bFound
  else
    material
termination_by (sm.m_objectMaterials.length - index) + (if bFound = false then 1 else 0)
decreasing_by
  all_goals simp_wf
  all_goals first
    | omega
    | simp_all

/-- `SceneManager::FindMaterial`: the returned flag and the final contents of
the reference parameter `material`. -/
def FindMaterial (sm : SceneManager α) (tag : String) (material : OBJECT_MATERIAL α) :
    Bool × OBJECT_MATERIAL α :=
  if sm.m_objectMaterials.length = 0 then
    (false, material)
  else
    (true, FindMaterial.loop sm tag material 0 false)

/-- `SceneManager::SetShaderMaterial`. The parameter `material` is the
initial content of the local variable `OBJECT_MATERIAL material;`, which the
function declares without initialising. Writing through a null
`m_pShaderManager` has no defined result (`none`). -/
def SetShaderMaterial (sm : SceneManager α) (materialTag : String)
    (material : OBJECT_MATERIAL α) : Option (SceneManager α) :=
  if sm.m_objectMaterials.length > 0 then
    let r := FindMaterial sm materialTag material
    let bReturn := r.1
    let material := r.2
    if bReturn = true then
      match sm.m_pShaderManager with
      | some s =>
        some { sm with
          m_pShaderManager := some
            (((((s.setVec3Value "material.ambientColor" material.ambientColor).setFloatValue
              "material.ambientStrength" material.ambientStrength).setVec3Value
              "material.diffuseColor" material.diffuseColor).setVec3Value
              "material.specularColor" material.specularColor).setFloatValue
              "material.shininess" material.shininess) }
      | none => none
    else
      some sm
  else
    some sm

/-- `SceneManager::DefineObjectMaterials`: seven `push_back` calls. -/
def DefineObjectMaterials (sm : SceneManager ℚ) : SceneManager ℚ :=
  let plasticMaterial : OBJECT_MATERIAL ℚ :=
    { ambientColor := ⟨0.1, 0.1, 0.1⟩, ambientStrength := 0.2, diffuseColor := ⟨0.6, 0.6, 0.6⟩,
      specularColor := ⟨0.9, 0.9, 0.9⟩, shininess := 32.0, tag := "plastic" }
  let feltWoolMaterial : OBJECT_MATERIAL ℚ :=
    { ambientColor := ⟨0.3, 0.3, 0.3⟩, ambientStrength := 0.6, diffuseColor := ⟨0.5, 0.5, 0.5⟩,
      specularColor := ⟨0.1, 0.1, 0.1⟩, shininess := 8.0, tag := "felt_wool" }
  let leatherMaterial : OBJECT_MATERIAL ℚ :=
    { ambientColor := ⟨0.3, 0.3, 0.1⟩, ambientStrength := 0.4, diffuseColor := ⟨0.8, 0.8, 0.4⟩,
      specularColor := ⟨0.5, 0.5, 0.2⟩, shininess := 16.0, tag := "leather" }
  let glassMaterial : OBJECT_MATERIAL ℚ :=
    { ambientColor := ⟨0.4, 0.4, 0.4⟩, ambientStrength := 0.3, diffuseColor := ⟨0.3, 0.3, 0.3⟩,
      specularColor := ⟨0.6, 0.6, 0.6⟩, shininess := 55.0, tag := "glass" }
  let woodMaterial : OBJECT_MATERIAL ℚ :=
    { ambientColor := ⟨0.6, 0.4, 0.2⟩, ambientStrength := 0.5, diffuseColor := ⟨0.7, 0.5, 0.3⟩,
      specularColor := ⟨0.3, 0.3, 0.3⟩, shininess := 20.0, tag := "wood" }
  let metalMaterial : OBJECT_MATERIAL ℚ :=
    { ambientColor := ⟨0.3, 0.3, 0.3⟩, ambientStrength := 0.4, diffuseColor := ⟨0.7, 0.7, 0.7⟩,
      specularColor := ⟨1.0, 1.0, 1.0⟩, shininess := 80.0, tag := "metal" }
  let matteMaterial : OBJECT_MATERIAL ℚ :=
    { ambientColor := ⟨0.5, 0.5, 0.5⟩, ambientStrength := 0.6, diffuseColor := ⟨0.6, 0.6, 0.6⟩,
      specularColor := ⟨0.1, 0.1, 0.1⟩, shininess := 10.0, tag := "matte" }
  { sm with
    m_objectMaterials := sm.m_objectMaterials ++
      [plasticMaterial, feltWoolMaterial, leatherMaterial, glassMaterial, woodMaterial,
        metalMaterial, matteMaterial] }

/-! ## Colour and texture -/

def g_ModelName : String := "model"
def g_ColorValueName : String := "objectColor"
def g_TextureValueName : String := "objectTexture"
def g_UseTextureName : String := "bUseTexture"
def g_UseLightingName : String := "bUseLighting"

/-- `SceneManager::SetShaderColor`. The `bool` argument `false` of
`setIntValue` converts to the integer 0. -/
def SetShaderColor (sm : SceneManager α) (redColorValue greenColorValue blueColorValue
    alphaValue : α) : SceneManager α :=
  let currentColor : vec4 α :=
    { x := redColorValue, y := greenColorValue, z := blueColorValue, w := alphaValue }
  match sm.m_pShaderManager with
  | some s =>
    { sm with
      m_pShaderManager := some
        ((s.setIntValue g_UseTextureName 0).setVec4Value g_ColorValueName currentColor) }
  | none => sm

/-- `SceneManager::SetShaderTexture`. The `bool` argument `true` of
`setIntValue` converts to the integer 1. -/
def SetShaderTexture (sm : SceneManager α) (textureTag : String) : SceneManager α :=
  match sm.m_pShaderManager with
  | some s =>
    let textureID : Int := FindTextureSlot sm textureTag
    { sm with
      m_pShaderManager := some
        ((s.setIntValue g_UseTextureName 1).setSampler2DValue g_TextureValueName textureID) }
  | none => sm

/-! ## Model matrix -/

/-- The functions of `<cmath>` that GLM calls, and the constant π. They are
a parameter so that the matrix code below stays executable over any field. -/
structure Trig (α : Type) where
  cos : α → α
  sin : α → α
  sqrt : α → α
  pi : α

namespace vec4

variable [Field α]

/-- The product `v * s` of a vector and a scalar. -/
def scale (v : vec4 α) (s : α) : vec4 α :=
  { x := v.x * s, y := v.y * s, z := v.z * s, w := v.w * s }

/-- The sum `a + b`. -/
def add (a b : vec4 α) : vec4 α :=
  { x := a.x + b.x, y := a.y + b.y, z := a.z + b.z, w := a.w + b.w }

end vec4

namespace mat4

variable [Field α]

/-- The matrix `glm::mat4(1.0f)`. -/
def identity : mat4 α :=
  { c0 := ⟨1, 0, 0, 0⟩, c1 := ⟨0, 1, 0, 0⟩, c2 := ⟨0, 0, 1, 0⟩, c3 := ⟨0, 0, 0, 1⟩ }

/-- GLM's `operator*` on two `mat4`: column `j` of the result is the
combination of the columns of `m1` with the entries of column `j` of `m2`. -/
def mul (m1 m2 : mat4 α) : mat4 α :=
  let col (b : vec4 α) : vec4 α :=
    (((m1.c0.scale b.x).add (m1.c1.scale b.y)).add (m1.c2.scale b.z)).add (m1.c3.scale b.w)
  { c0 := col m2.c0, c1 := col m2.c1, c2 := col m2.c2, c3 := col m2.c3 }

/-- GLM's `operator*` of a `mat4` and a `vec4` (column vector). -/
def mulVec (m : mat4 α) (v : vec4 α) : vec4 α :=
  ((m.c0.scale v.x).add (m.c1.scale v.y)).add ((m.c2.scale v.z).add (m.c3.scale v.w))

/-- The mathematical matrix that a column-major `mat4` stands for: entry
`(i, j)` is row `i` of column `j`. -/
def toMatrix (m : mat4 α) : Matrix (Fin 4) (Fin 4) α :=
  !![m.c0.x, m.c1.x, m.c2.x, m.c3.x;
     m.c0.y, m.c1.y, m.c2.y, m.c3.y;
     m.c0.z, m.c1.z, m.c2.z, m.c3.z;
     m.c0.w, m.c1.w, m.c2.w, m.c3.w]

end mat4

/-- The column vector of a `vec4`. -/
def vec4.toVec (v : vec4 α) : Fin 4 → α :=
  ![v.x, v.y, v.z, v.w]

namespace glm

variable [Field α]

/-- Modelled from the spec: GLM is an external library whose source is not
at hand; `glm::radians` is the conversion "degrees to radians" of section 4.2,
that is the factor π/180. -/
def radians (T : Trig α) (degrees : α) : α :=
  degrees * (T.pi / 180)

/-- Modelled from the spec: GLM is an external library whose source is not
at hand; `glm::scale(v)` is the spec's `Scale`, built as GLM does, by scaling
the first three columns of the identity. -/
def scale (v : vec3 α) : mat4 α :=
  let m : mat4 α := mat4.identity
  { c0 := m.c0.scale v.x, c1 := m.c1.scale v.y, c2 := m.c2.scale v.z, c3 := m.c3 }

/-- Modelled from the spec: GLM is an external library whose source is not
at hand; `glm::translate(v)` is the spec's `Translate`, built as GLM does, by
replacing the last column of the identity. -/
def translate (v : vec3 α) : mat4 α :=
  let m : mat4 α := mat4.identity
  { m with c3 := (((m.c0.scale v.x).add (m.c1.scale v.y)).add (m.c2.scale v.z)).add m.c3 }

/-- The function `glm::normalize` on `vec3`: `v * inversesqrt(dot(v, v))`. -/
def normalize (T : Trig α) (v : vec3 α) : vec3 α :=
  let k : α := 1 / T.sqrt (v.x * v.x + v.y * v.y + v.z * v.z)
  { x := v.x * k, y := v.y * k, z := v.z * k }

/-- Modelled from the spec: GLM is an external library whose source is not
at hand; `glm::rotate(angle, v)` is the spec's rotation about an axis, built
as GLM does, from the axis-angle formula applied to the identity matrix. -/
def rotate (T : Trig α) (angle : α) (v : vec3 α) : mat4 α :=
  let c := T.cos angle
  let s := T.sin angle
  let axis := normalize T v
  let temp : vec3 α := { x := (1 - c) * axis.x, y := (1 - c) * axis.y, z := (1 - c) * axis.z }
  let r00 := c + temp.x * axis.x
  let r01 := temp.x * axis.y + s * axis.z
  let r02 := temp.x * axis.z - s * axis.y
  let r10 := temp.y * axis.x - s * axis.z
  let r11 := c + temp.y * axis.y
  let r12 := temp.y * axis.z + s * axis.x
  let r20 := temp.z * axis.x + s * axis.y
  let r21 := temp.z * axis.y - s * axis.x
  let r22 := c + temp.z * axis.z
  let m : mat4 α := mat4.identity
  { c0 := ((m.c0.scale r00).add (m.c1.scale r01)).add (m.c2.scale r02)
    c1 := ((m.c0.scale r10).add (m.c1.scale r11)).add (m.c2.scale r12)
    c2 := ((m.c0.scale r20).add (m.c1.scale r21)).add (m.c2.scale r22)
    c3 := m.c3 }

end glm

/-- `SceneManager::SetTransformations`. -/
def SetTransformations [Field α] (T : Trig α) (sm : SceneManager α) (scaleXYZ : vec3 α)
    (XrotationDegrees YrotationDegrees ZrotationDegrees : α) (positionXYZ : vec3 α) :
    SceneManager α :=
  let scale := glm.scale scaleXYZ
  let rotationX := glm.rotate T (glm.radians T XrotationDegrees) ⟨1, 0, 0⟩
  let rotationY := glm.rotate T (glm.radians T YrotationDegrees) ⟨0, 1, 0⟩
  let rotationZ := glm.rotate T (glm.radians T ZrotationDegrees) ⟨0, 0, 1⟩
  let translation := glm.translate positionXYZ
  let modelView := (((translation.mul rotationX).mul rotationY).mul rotationZ).mul scale
  match sm.m_pShaderManager with
  | some s => { sm with m_pShaderManager := some (s.setMat4Value g_ModelName modelView) }
  | none => sm

/-! ### The matrices the specification names -/

/-- The homogeneous translation by `p`. -/
def Translate [Field α] (p : vec3 α) : Matrix (Fin 4) (Fin 4) α :=
  !![1, 0, 0, p.x;
     0, 1, 0, p.y;
     0, 0, 1, p.z;
     0, 0, 0, 1]

/-- The rotation by the angle `θ` (radians) about the X axis. -/
def RotateX [Field α] (T : Trig α) (θ : α) : Matrix (Fin 4) (Fin 4) α :=
  !![1, 0, 0, 0;
     0, T.cos θ, -T.sin θ, 0;
     0, T.sin θ, T.cos θ, 0;
     0, 0, 0, 1]

/-- The rotation by the angle `θ` (radians) about the Y axis. -/
def RotateY [Field α] (T : Trig α) (θ : α) : Matrix (Fin 4) (Fin 4) α :=
  !![T.cos θ, 0, T.sin θ, 0;
     0, 1, 0, 0;
     -T.sin θ, 0, T.cos θ, 0;
     0, 0, 0, 1]

/-- The rotation by the angle `θ` (radians) about the Z axis. -/
def RotateZ [Field α] (T : Trig α) (θ : α) : Matrix (Fin 4) (Fin 4) α :=
  !![T.cos θ, -T.sin θ, 0, 0;
     T.sin θ, T.cos θ, 0, 0;
     0, 0, 1, 0;
     0, 0, 0, 1]

/-- The scaling by the factors `k` along the three axes. -/
def Scale [Field α] (k : vec3 α) : Matrix (Fin 4) (Fin 4) α :=
  !![k.x, 0, 0, 0;
     0, k.y, 0, 0;
     0, 0, k.z, 0;
     0, 0, 0, 1]

/-! ## View manager -/

/-- The variables of the anonymous namespace of `ViewManager.cpp` that hold
numbers and flags. -/
structure ViewGlobals where
  gLastX : ℚ
  gLastY : ℚ
  gFirstMouse : Bool
  gDeltaTime : ℚ
  gLastFrame : ℚ
  cameraSpeed : ℚ
  bOrthographicProjection : Bool
deriving DecidableEq, Repr

def WINDOW_WIDTH : Int := 1000
def WINDOW_HEIGHT : Int := 800

/-- The initialisers of the anonymous namespace. -/
def ViewGlobals.initial : ViewGlobals :=
  { gLastX := (WINDOW_WIDTH : ℚ) / 2.0
    gLastY := (WINDOW_HEIGHT : ℚ) / 2.0
    gFirstMouse := true
    gDeltaTime := 0.0
    gLastFrame := 0.0
    cameraSpeed := 4.1
    bOrthographicProjection := false }

/-- The free function `scrollCallback`. -/
def scrollCallback (g : ViewGlobals) (xOffset yOffset : ℚ) : ViewGlobals :=
  let cameraSpeed := g.cameraSpeed + yOffset * 0.01
  let cameraSpeed := if cameraSpeed > 6.0 then 6.0 else cameraSpeed
  let cameraSpeed := if cameraSpeed < 0.01 then 0.01 else cameraSpeed
  { g with cameraSpeed := cameraSpeed }

/-- The globals after a sequence of scroll events, all with the vertical
offset `yOffset`. -/
def scrollRepeat (yOffset : ℚ) : Nat → ViewGlobals → ViewGlobals
  | 0, g => g
  | k + 1, g => scrollCallback (scrollRepeat yOffset k g) 0 yOffset

/-! ## Binary floating-point rounding -/

/-- Round to the nearest integer, a tie going to the even neighbour. -/
def roundHalfEven (r : ℚ) : Int :=
  let f := ⌊r⌋
  if r - f < 1 / 2 then f
  else if r - f > 1 / 2 then f + 1
  else if f % 2 = 0 then f else f + 1

/-- IEEE 754 rounding (to nearest, ties to even) of a rational to the binary
format with `p` significand bits and least normal exponent `emin`; values
below the normal range round on the subnormal grid. Overflow to infinity is
not represented: the result is meant for magnitudes inside the finite range
of the format. -/
def roundBinary (p : Nat) (emin : Int) (q : ℚ) : ℚ :=
  if q = 0 then 0
  else
    let e := max (Int.log 2 |q|) emin
    let ulp : ℚ := 2 ^ (e - ((p : Int) - 1))
    roundHalfEven (q / ulp) * ulp

/-- The conversion to `float` (binary32). -/
def toFloat (q : ℚ) : ℚ :=
  roundBinary 24 (-126) q

/-- The rounding of a `double` (binary64) operation or literal. -/
def toDouble (q : ℚ) : ℚ :=
  roundBinary 53 (-1022) q

/-! ## View manager: camera, keyboard and mouse -/

/-- Modelled from the spec: the class `Camera` is not part of the sources at
hand. It is the record of the members that `ViewManager.cpp` reads and
writes (`Position`, `Front`, `Up`, `Zoom`: the spec's position, front, up
and zoomFOV) together with whatever else the class holds, `rest`. -/
structure Camera (ρ : Type) where
  Position : vec3 ℚ
  Front : vec3 ℚ
  Up : vec3 ℚ
  Zoom : ℚ
  rest : ρ

/-- The directions passed to `Camera::ProcessKeyboard`. -/
inductive Camera_Movement where
  | FORWARD
  | BACKWARD
  | LEFT
  | RIGHT
  | UP
  | DOWN
deriving DecidableEq, Repr

/-- The keys that `ProcessKeyboardEvents` polls. -/
inductive Key where
  | GLFW_KEY_ESCAPE
  | GLFW_KEY_W
  | GLFW_KEY_S
  | GLFW_KEY_A
  | GLFW_KEY_D
  | GLFW_KEY_Q
  | GLFW_KEY_E
  | GLFW_KEY_O
  | GLFW_KEY_P
deriving DecidableEq, Repr

/-- The state that the functions of `ViewManager.cpp` work on: the globals
of the anonymous namespace, the camera behind the pointer `g_pCamera`
(`none` is the null pointer) and the should-close flag of the window. -/
structure ViewManager (ρ : Type) where
  globals : ViewGlobals
  g_pCamera : Option (Camera ρ)
  windowShouldClose : Bool

/-- `ViewManager::Mouse_Position_Callback`. The samples `xMousePos` and
`yMousePos` are `double`s, the globals `gLastX`, `gLastY` and the locals
`xOffset`, `yOffset` are `float`s: every assignment of a `double` to one of
them converts with `toFloat`, and the two subtractions are `double`
subtractions (the `float` operand is promoted exactly). The member function
`Camera::ProcessMouseMovement` is a parameter; calling it through a null
`g_pCamera` has no defined result (`none`). -/
def Mouse_Position_Callback {ρ : Type}
    (ProcessMouseMovement : Camera ρ → ℚ → ℚ → Camera ρ)
    (vm : ViewManager ρ) (xMousePos yMousePos : ℚ) : Option (ViewManager ρ) :=
  let g := vm.globals
  let g :=
    if g.gFirstMouse = true then
      { g with gLastX := toFloat xMousePos, gLastY := toFloat yMousePos, gFirstMouse := false }
    else g
  let xOffset := toFloat (toDouble (xMousePos - g.gLastX))
  let yOffset := toFloat (toDouble (g.gLastY - yMousePos))
  let g := { g with gLastX := toFloat xMousePos, gLastY := toFloat yMousePos }
  match vm.g_pCamera with
  | some camera =>
    some { vm with globals := g, g_pCamera := some (ProcessMouseMovement camera xOffset yOffset) }
  | none => none

/-- `ViewManager::ProcessKeyboardEvents`. The function `glfwGetKey` tells
which keys are pressed, and the member function `Camera::ProcessKeyboard` is
a parameter. -/
def ProcessKeyboardEvents {ρ : Type}
    (ProcessKeyboard : Camera ρ → Camera_Movement → ℚ → Camera ρ)
    (glfwGetKey : Key → Bool) (vm : ViewManager ρ) : ViewManager ρ :=
  let vm :=
    if glfwGetKey .GLFW_KEY_ESCAPE = true then { vm with windowShouldClose := true } else vm
  match vm.g_pCamera with
  | none => vm
  | some camera =>
    let velocity := vm.globals.gDeltaTime * vm.globals.cameraSpeed
    let camera :=
      if glfwGetKey .GLFW_KEY_W = true then ProcessKeyboard camera .FORWARD velocity else camera
    let camera :=
      if glfwGetKey .GLFW_KEY_S = true then ProcessKeyboard camera .BACKWARD velocity else camera
    let camera :=
      if glfwGetKey .GLFW_KEY_A = true then ProcessKeyboard camera .LEFT velocity else camera
    let camera :=
      if glfwGetKey .GLFW_KEY_D = true then ProcessKeyboard camera .RIGHT velocity else camera
    let camera :=
      if glfwGetKey .GLFW_KEY_Q = true then ProcessKeyboard camera .UP velocity else camera
    let camera :=
      if glfwGetKey .GLFW_KEY_E = true then ProcessKeyboard camera .DOWN velocity else camera
    let camera :=
      if glfwGetKey .GLFW_KEY_O = true then
        { camera with Position := ⟨-1.0, 5.0, 13.0⟩ }
      else camera
    let camera :=
      if glfwGetKey .GLFW_KEY_P = true then
        { camera with
          Position := ⟨-4.0, 8.0, 4.0⟩
          Front := ⟨0.0, -1.5, -2.0⟩
          Up := ⟨0.0, 1.0, 0.0⟩
          Zoom := 100 }
      else camera
    { vm with g_pCamera := some camera }

/-- The camera that the constructor `ViewManager::ViewManager` sets up. -/
def Camera.constructed {ρ : Type} (rest : ρ) : Camera ρ :=
  { Position := ⟨0.5, 5.5, 10.0⟩
    Front := ⟨0.0, -0.5, -2.0⟩
    Up := ⟨0.0, 1.0, 0.0⟩
    Zoom := 80
    rest := rest }

/-- The key state in which exactly the key `k` is pressed. -/
def onlyKey (k : Key) : Key → Bool :=
  fun key => decide (key = k)

/-! ## Sequences of shading-mode calls -/

/-- One call of a shading-mode setter. -/
inductive ShadingCall (α : Type) where
  | color (r g b a : α)
  | texture (tag : String)

/-- Perform one shading-mode call. -/
def ShadingCall.run (sm : SceneManager α) : ShadingCall α → SceneManager α
  | .color r g b a => SetShaderColor sm r g b a
  | .texture tag => SetShaderTexture sm tag

/-- Perform a list of shading-mode calls, first to last. -/
def runShadingCalls (sm : SceneManager α) (calls : List (ShadingCall α)) : SceneManager α :=
  calls.foldl ShadingCall.run sm

/-- The value that a shading-mode call passes for `bUseTexture`. -/
def ShadingCall.flag : ShadingCall α → Int
  | .color _ _ _ _ => 0
  | .texture _ => 1

/-! ## Scene setup -/

/-- `SceneManager::LoadSceneTextures`: three calls of `CreateGLTexture`,
whose results are assigned to `bReturn` and not looked at, then
`BindGLTextures`, which only talks to OpenGL. The handles that OpenGL hands
out for the three texture objects are `handle0`, `handle1`, `handle2`. -/
def LoadSceneTextures (stbi_load : String → Option DecodedImage) (handle0 handle1 handle2 : Nat)
    (sm : SceneManager α) : Option (SceneManager α) := do
  let r ← CreateGLTexture stbi_load handle0 sm
    "//apporto.com/dfs/SNHU/USERS/vyhuynh11_snhu/Documents/CS330Content/Utilities/textures/sharpies.png"
    "sharpie"
  let r ← CreateGLTexture stbi_load handle1 r.2
    "//apporto.com/dfs/SNHU/USERS/vyhuynh11_snhu/Documents/CS330Content/Utilities/textures/sbx.png"
    "starbucks"
  let r ← CreateGLTexture stbi_load handle2 r.2
    "//apporto.com/dfs/SNHU/USERS/vyhuynh11_snhu/Documents/CS330Content/Utilities/textures/ruler.png"
    "ruler"
  pure r.2

/-- `SceneManager::SetupSceneLights`; it writes through `m_pShaderManager`
without testing it, so a null pointer has no defined result (`none`). -/
def SetupSceneLights (sm : SceneManager ℚ) : Option (SceneManager ℚ) :=
  match sm.m_pShaderManager with
  | none => none
  | some s =>
    let s := s.setVec3Value "lightSources[0].position" ⟨-3.0, 4.0, 6.0⟩
    let s := s.setVec3Value "lightSources[0].ambientColor" ⟨0.005, 0.005, 0.005⟩
    let s := s.setVec3Value "lightSources[0].diffuseColor" ⟨0.25, 0.25, 0.25⟩
    let s := s.setVec3Value "lightSources[0].specularColor" ⟨0.25, 0.25, 0.25⟩
    let s := s.setFloatValue "lightSources[0].focalStrength" 32.0
    let s := s.setFloatValue "lightSources[0].specularIntensity" 0.1
    let s := s.setVec3Value "lightSources[1].position" ⟨3.0, 4.0, 6.0⟩
    let s := s.setVec3Value "lightSources[1].ambientColor" ⟨0.005, 0.005, 0.005⟩
    let s := s.setVec3Value "lightSources[1].diffuseColor" ⟨0.25, 0.25, 0.25⟩
    let s := s.setVec3Value "lightSources[1].specularColor" ⟨0.25, 0.25, 0.25⟩
    let s := s.setFloatValue "lightSources[1].focalStrength" 32.0
    let s := s.setFloatValue "lightSources[1].specularIntensity" 0.1
    let s := s.setVec3Value "lightSources[2].position" ⟨0.0, 3.0, 10.0⟩
    let s := s.setVec3Value "lightSources[2].ambientColor" ⟨0.025, 0.025, 0.025⟩
    let s := s.setVec3Value "lightSources[2].diffuseColor" ⟨0.25, 0.25, 0.25⟩
    let s := s.setVec3Value "lightSources[2].specularColor" ⟨0.125, 0.125, 0.125⟩
    let s := s.setFloatValue "lightSources[2].focalStrength" 22.0
    let s := s.setFloatValue "lightSources[2].specularIntensity" 0.1
    let s := s.setBoolValue "bUseLighting" true
    some { sm with m_pShaderManager := some s }

/-- The primitive shapes that the calls on `m_basicMeshes` name. -/
inductive Mesh where
  | Plane
  | Cone
  | Cylinder
  | TaperedCylinder
  | Torus
  | HalfTorus
  | Box
deriving DecidableEq, Repr

/-- Modelled from the spec: the class `ShapeMeshes` behind `m_basicMeshes`
is not part of the sources at hand. Following section 6 it offers a load and
a draw operation per shape; its state is the list of shapes whose load has
been requested, in the order of the requests. -/
structure ShapeMeshes where
  loaded : List Mesh
deriving DecidableEq, Repr

/-- Request the load of one shape (`LoadPlaneMesh`, `LoadConeMesh`, ...). -/
def ShapeMeshes.LoadMesh (m : ShapeMeshes) (shape : Mesh) : ShapeMeshes :=
  { loaded := m.loaded ++ [shape] }

/-- `SceneManager::PrepareScene`, on the scene manager and on the object
behind `m_basicMeshes`. -/
def PrepareScene (stbi_load : String → Option DecodedImage) (handle0 handle1 handle2 : Nat)
    (sm : SceneManager ℚ) (m_basicMeshes : ShapeMeshes) :
    Option (SceneManager ℚ × ShapeMeshes) := do
  let sm ← LoadSceneTextures stbi_load handle0 handle1 handle2 sm
  let sm := DefineObjectMaterials sm
  let sm ← SetupSceneLights sm
  let m_basicMeshes := m_basicMeshes.LoadMesh .Plane
  let m_basicMeshes := m_basicMeshes.LoadMesh .Cone
  let m_basicMeshes := m_basicMeshes.LoadMesh .Cylinder
  let m_basicMeshes := m_basicMeshes.LoadMesh .TaperedCylinder
  let m_basicMeshes := m_basicMeshes.LoadMesh .Torus
  let m_basicMeshes := m_basicMeshes.LoadMesh .Box
  pure (sm, m_basicMeshes)

/-! ## Scene rendering -/

/-- One call issued while rendering: `transform` is `SetTransformations`,
`color` is `SetShaderColor`, `texture` is `SetShaderTexture`, `material` is
`SetShaderMaterial`, and `draw shape` is the draw call of `m_basicMeshes`
named after the shape (`DrawCylinderMesh`, `DrawHalfTorusMesh`, ...). -/
inductive Command where
  | transform (scaleXYZ : vec3 ℚ) (XrotationDegrees YrotationDegrees ZrotationDegrees : ℚ)
      (positionXYZ : vec3 ℚ)
  | color (redColorValue greenColorValue blueColorValue alphaValue : ℚ)
  | texture (textureTag : String)
  | material (materialTag : String)
  | draw (shape : Mesh)
deriving DecidableEq, Repr

/-- `SceneManager::RenderBackground`: the calls it issues, in order. -/
def RenderBackground : List Command :=
  [ .transform ⟨20.0, 10.0, 10.0⟩ 0.0 0.0 0.0 ⟨0.0, -0.1, 0.0⟩,
    .color 0.859 0.627 0.196 1,
    .material "leather",
    .draw .Plane ]

/-- `SceneManager::RenderSharpie`: the calls it issues, in order. -/
def RenderSharpie : List Command :=
  [ .transform ⟨0.6, 5.5, 1.0⟩ 0.0 0.0 30.0 ⟨0.0, 0.2, 1.0⟩,
    .texture "sharpie",
    .material "plastic",
    .draw .Cylinder,
    .transform ⟨0.5, 1.6, 1.0⟩ 0.0 0.0 30.0 ⟨-2.73, 4.95, 1.0⟩,
    .color 0 0.282 0.78 1,
    .material "plastic",
    .draw .Cylinder,
    .transform ⟨0.5, 0.6, 1.0⟩ 0.0 0.0 30.0 ⟨-3.5, 6.3, 1.0⟩,
    .color 0 0.282 0.78 1,
    .material "plastic",
    .draw .TaperedCylinder,
    .transform ⟨0.2, 0.5, 0.3⟩ 0.0 0.0 30.0 ⟨-3.8, 6.8, 1.0⟩,
    .color 0.165 0.188 0.282 1,
    .material "felt_wool",
    .draw .Cone ]

/-- `SceneManager::RenderCup`: the calls it issues, in order. -/
def RenderCup : List Command :=
  [ .transform ⟨2.6, 5.5, 1.0⟩ 0.0 0.0 0.0 ⟨-6.2, 0.0, 0.8⟩,
    .texture "starbucks",
    .material "glass",
    .draw .Cylinder,
    .transform ⟨2.0, 2.0, 1.0⟩ 0.0 0.0 (-90.0) ⟨-4.0, 3.0, 0.8⟩,
    .color 1 1 1 1,
    .material "glass",
    .draw .HalfTorus,
    .transform ⟨2.6, 0.1, 1.0⟩ 0.0 0.0 0.0 ⟨-6.2, 5.5, 0.8⟩,
    .color 1 1 1 1,
    .draw .Cylinder ]

/-- `SceneManager::RenderRuler`: the calls it issues, in order. -/
def RenderRuler : List Command :=
  [ .transform ⟨18.0, 1.5, 0.2⟩ 0.0 (-5.0) 0.0 ⟨-1.2, 0.8, 2.2⟩,
    .texture "ruler",
    .material "wood",
    .draw .Box,
    .transform ⟨0.25, 0.0, 0.25⟩ 90.0 (-5.0) 0.0 ⟨-2.4, 0.9, 2.25⟩,
    .color 0.929 0.659 0.161 1,
    .material "leather",
    .draw .Cylinder,
    .transform ⟨0.27, 0.0, 0.27⟩ 91.0 (-5.0) 0.0 ⟨-9.4, 0.95, 1.7⟩,
    .color 0.929 0.659 0.161 1,
    .material "leather",
    .draw .Cylinder,
    .transform ⟨0.22, 0.0, 0.22⟩ 91.0 (-5.0) 0.0 ⟨-8.0, 0.9, 1.75⟩,
    .color 0.929 0.659 0.161 1,
    .material "leather",
    .draw .Cylinder,
    .transform ⟨0.22, 0.0, 0.22⟩ 91.0 (-5.0) 0.0 ⟨5.0, 0.9, 2.87⟩,
    .color 0.929 0.659 0.161 1,
    .material "leather",
    .draw .Cylinder ]

/-- `SceneManager::RenderBattery`: the calls it issues, in order. -/
def RenderBattery : List Command :=
  [ .transform ⟨0.5, 0.1, 0.5⟩ 0.0 0.0 0.0 ⟨1.2, 0.0, 3.2⟩,
    .color 0.22 0.941 0.157 1,
    .material "matte",
    .draw .Cylinder,
    .transform ⟨0.5, 2.1, 0.5⟩ 0.0 0.0 0.0 ⟨1.2, 0.1, 3.2⟩,
    .color 0 0 0 1,
    .material "matte",
    .draw .Cylinder,
    .transform ⟨0.5, 0.1, 0.5⟩ 0.0 0.0 0.0 ⟨1.2, 2.2, 3.2⟩,
    .color 0.22 0.941 0.157 1,
    .material "matte",
    .draw .Cylinder,
    .transform ⟨0.2, 0.1, 0.2⟩ 0.0 0.0 0.0 ⟨1.2, 2.3, 3.2⟩,
    .color 0.667 0.663 0.678 1,
    .material "metal",
    .draw .Cylinder ]

/-- `SceneManager::RenderScene`: the calls of the five sub-objects. -/
def RenderScene : List Command :=
  RenderBackground ++ RenderSharpie ++ RenderCup ++ RenderRuler ++ RenderBattery

/-- Perform one rendering call on the scene manager. The local variable of
`SetShaderMaterial` starts as `material`; a draw call reads the shader state
and leaves the scene manager as it is. -/
def Command.exec (T : Trig ℚ) (material : OBJECT_MATERIAL ℚ) (sm : SceneManager ℚ) :
    Command → Option (SceneManager ℚ)
  | .transform scaleXYZ x y z positionXYZ => some (SetTransformations T sm scaleXYZ x y z positionXYZ)
  | .color r g b a => some (SetShaderColor sm r g b a)
  | .texture textureTag => some (SetShaderTexture sm textureTag)
  | .material materialTag => SetShaderMaterial sm materialTag material
  | .draw _ => some sm

/-! ### Reading a sequence of rendering calls -/

/-- The tags passed to `SetShaderTexture`, in order. -/
def textureTags : List Command → List String
  | [] => []
  | .texture tag :: rest => tag :: textureTags rest
  | _ :: rest => textureTags rest

/-- The tags passed to `SetShaderMaterial`, in order. -/
def materialTags : List Command → List String
  | [] => []
  | .material tag :: rest => tag :: materialTags rest
  | _ :: rest => materialTags rest

/-- The shapes drawn, in order. -/
def drawnMeshes : List Command → List Mesh
  | [] => []
  | .draw shape :: rest => shape :: drawnMeshes rest
  | _ :: rest => drawnMeshes rest

/-- For every draw call, in order: the calls issued since the previous draw
call (or since the start), and the shape drawn. `pending` holds the calls
seen since the last draw. -/
def drawSegments.go : List Command → List Command → List (List Command × Mesh)
  | [], _ => []
  | .draw shape :: rest, pending => (pending, shape) :: drawSegments.go rest []
  | c :: rest, pending => drawSegments.go rest (pending ++ [c])

/-- For every draw call, in order: the calls issued since the previous draw
call, and the shape drawn. -/
def drawSegments (calls : List Command) : List (List Command × Mesh) :=
  drawSegments.go calls []

/-- Whether the calls before a draw are the full chain: one
`SetTransformations`, then one of `SetShaderColor` and `SetShaderTexture`,
then one `SetShaderMaterial`, and nothing else. -/
def isFullChain : List Command → Bool
  | [.transform _ _ _ _ _, .color _ _ _ _, .material _] => true
  | [.transform _ _ _ _ _, .texture _, .material _] => true
  | _ => false

/-- The tag of the last `SetShaderMaterial` among the calls, if any. -/
def lastMaterial (calls : List Command) : Option String :=
  (materialTags calls).getLast?

/-! ## Fixtures and auxiliary definitions -/

/-- A small registry used to evaluate the lookups: three textures in an
array of capacity five. -/
def demoRegistry : SceneManager ℚ :=
  { m_pShaderManager := none
    m_textureIDs := [⟨"sharpie", 11⟩, ⟨"starbucks", 12⟩, ⟨"ruler", 13⟩, ⟨"", 0⟩, ⟨"", 0⟩]
    m_loadedTextures := 3
    m_objectMaterials := [] }

/-- A decoder for the evaluations: one file with three channels, one with a
single channel (greyscale), one with two, and nothing else on disk. -/
def demoDecoder : String → Option DecodedImage := fun filename =>
  if filename = "rgb.png" then some { width := 4, height := 4, colorChannels := 3 }
  else if filename = "grey.png" then some { width := 4, height := 4, colorChannels := 1 }
  else if filename = "greyalpha.png" then some { width := 4, height := 4, colorChannels := 2 }
  else none

/-- The five assignments of `FindMaterial` from a catalog entry into the
output parameter; the tag of the output parameter is not assigned. -/
def OBJECT_MATERIAL.assignFrom (material entry : OBJECT_MATERIAL α) : OBJECT_MATERIAL α :=
  { material with
    ambientColor := entry.ambientColor
    ambientStrength := entry.ambientStrength
    diffuseColor := entry.diffuseColor
    specularColor := entry.specularColor
    shininess := entry.shininess }

/-- The five uniform writes of `SetShaderMaterial`. -/
def ShaderManager.writeMaterial (s : ShaderManager α) (material : OBJECT_MATERIAL α) :
    ShaderManager α :=
  ((((s.setVec3Value "material.ambientColor" material.ambientColor).setFloatValue
    "material.ambientStrength" material.ambientStrength).setVec3Value
    "material.diffuseColor" material.diffuseColor).setVec3Value
    "material.specularColor" material.specularColor).setFloatValue
    "material.shininess" material.shininess

/-- A scene manager before setup: a shader without any uniform written, an
empty registry of capacity 16 and an empty material catalog. -/
def emptyScene : SceneManager ℚ :=
  { m_pShaderManager := some { uniforms := fun _ => none }
    m_textureIDs := List.replicate 16 default
    m_loadedTextures := 0
    m_objectMaterials := [] }

/-- The scene manager after `DefineObjectMaterials`. -/
def preparedScene : SceneManager ℚ :=
  DefineObjectMaterials emptyScene

/-- A possible content of an uninitialised `OBJECT_MATERIAL`: all zero. -/
def zeroMaterial : OBJECT_MATERIAL ℚ :=
  { ambientColor := ⟨0, 0, 0⟩, ambientStrength := 0, diffuseColor := ⟨0, 0, 0⟩,
    specularColor := ⟨0, 0, 0⟩, shininess := 0, tag := "" }

/-- The registry of `demoRegistry` with a shader attached. -/
def demoShaded : SceneManager ℚ :=
  { demoRegistry with m_pShaderManager := some { uniforms := fun _ => none } }

/-- The model matrix that `SetTransformations` computes. -/
def modelMatrix [Field α] (T : Trig α) (scaleXYZ : vec3 α)
    (XrotationDegrees YrotationDegrees ZrotationDegrees : α) (positionXYZ : vec3 α) : mat4 α :=
  ((((glm.translate positionXYZ).mul
      (glm.rotate T (glm.radians T XrotationDegrees) ⟨1, 0, 0⟩)).mul
      (glm.rotate T (glm.radians T YrotationDegrees) ⟨0, 1, 0⟩)).mul
      (glm.rotate T (glm.radians T ZrotationDegrees) ⟨0, 0, 1⟩)).mul
      (glm.scale scaleXYZ)

/-- The three image files that `LoadSceneTextures` loads. -/
def sceneTextureFiles : List String :=
  [ "//apporto.com/dfs/SNHU/USERS/vyhuynh11_snhu/Documents/CS330Content/Utilities/textures/sharpies.png",
    "//apporto.com/dfs/SNHU/USERS/vyhuynh11_snhu/Documents/CS330Content/Utilities/textures/sbx.png",
    "//apporto.com/dfs/SNHU/USERS/vyhuynh11_snhu/Documents/CS330Content/Utilities/textures/ruler.png" ]

/-- A decoder for which every file is a valid four-channel image. -/
def sceneDecoder : String → Option DecodedImage :=
  fun _ => some { width := 64, height := 64, colorChannels := 4 }

/-! ## Lemmas on the texture registry -/

theorem SceneManager.registry_length (sm : SceneManager α)
    (hwf : sm.m_loadedTextures ≤ sm.m_textureIDs.length) :
    sm.registry.length = sm.m_loadedTextures := by
  simp [SceneManager.registry, hwf]

theorem SceneManager.registry_getElem? (sm : SceneManager α)
    (hwf : sm.m_loadedTextures ≤ sm.m_textureIDs.length) (i : Nat)
    (hi : i < sm.m_loadedTextures) :
    sm.registry[i]? = some (sm.m_textureIDs.getD i default) := by
  have hlen : i < sm.m_textureIDs.length := by omega
  simp [SceneManager.registry, List.getElem?_take, hi, List.getD_eq_getElem?_getD,
    List.getElem?_eq_getElem hlen]

theorem SceneManager.registry_getElem?_lt (sm : SceneManager α)
    (hwf : sm.m_loadedTextures ≤ sm.m_textureIDs.length) (i : Nat) (e : TEXTURE_INFO)
    (h : sm.registry[i]? = some e) :
    i < sm.m_loadedTextures ∧ sm.m_textureIDs.getD i default = e := by
  have hi : i < sm.registry.length := by
    by_contra hcon
    rw [List.getElem?_eq_none (by omega)] at h
    cases h
  rw [sm.registry_length hwf] at hi
  rw [sm.registry_getElem? hwf i hi] at h
  exact ⟨hi, by injection h⟩

theorem FindTextureSlot_loop_done (sm : SceneManager α) (tag : String) (textureSlot : Int)
    (index : Nat) : FindTextureSlot.loop sm tag textureSlot index true = textureSlot := by
  rw [FindTextureSlot.loop]; simp

theorem FindTextureSlot_loop_found (sm : SceneManager α) (tag : String) (textureSlot : Int)
    (i : Nat) (hi : i < sm.m_loadedTextures)
    (htag : (sm.m_textureIDs.getD i default).tag = tag) (index : Nat) (hle : index ≤ i)
    (hne : ∀ j, index ≤ j → j < i → (sm.m_textureIDs.getD j default).tag ≠ tag) :
    FindTextureSlot.loop sm tag textureSlot index false = (i : Int) := by
  generalize hd : i - index = d
  induction d generalizing index textureSlot with
  | zero =>
    have hidx : index = i := by omega
    subst hidx
    rw [FindTextureSlot.loop, if_pos ⟨hi, rfl⟩, if_pos htag, FindTextureSlot_loop_done]
  | succ d ih =>
    have hlt : index < sm.m_loadedTextures := by omega
    have hne0 := hne index le_rfl (by omega)
    rw [FindTextureSlot.loop, if_pos ⟨hlt, rfl⟩, if_neg hne0]
    exact ih textureSlot (index + 1) (by omega) (fun j h1 h2 => hne j (by omega) h2) (by omega)

theorem FindTextureSlot_loop_absent (sm : SceneManager α) (tag : String) (textureSlot : Int)
    (index : Nat)
    (hne : ∀ j, index ≤ j → j < sm.m_loadedTextures →
      (sm.m_textureIDs.getD j default).tag ≠ tag) :
    FindTextureSlot.loop sm tag textureSlot index false = textureSlot := by
  generalize hd : sm.m_loadedTextures - index = d
  induction d generalizing index with
  | zero =>
    have hge : ¬ index < sm.m_loadedTextures := by omega
    rw [FindTextureSlot.loop]
    simp [hge]
  | succ d ih =>
    have hlt : index < sm.m_loadedTextures := by omega
    have hne0 := hne index le_rfl hlt
    rw [FindTextureSlot.loop, if_pos ⟨hlt, rfl⟩, if_neg hne0]
    exact ih (index + 1) (fun j h1 h2 => hne j (by omega) h2) (by omega)

theorem FindTextureID_loop_done (sm : SceneManager α) (tag : String) (textureID : Int)
    (index : Nat) : FindTextureID.loop sm tag textureID index true = textureID := by
  rw [FindTextureID.loop]; simp

theorem FindTextureID_loop_found (sm : SceneManager α) (tag : String) (textureID : Int)
    (i : Nat) (hi : i < sm.m_loadedTextures)
    (htag : (sm.m_textureIDs.getD i default).tag = tag) (index : Nat) (hle : index ≤ i)
    (hne : ∀ j, index ≤ j → j < i → (sm.m_textureIDs.getD j default).tag ≠ tag) :
    FindTextureID.loop sm tag textureID index false
      = intOfGLuint (sm.m_textureIDs.getD i default).ID := by
  generalize hd : i - index = d
  induction d generalizing index textureID with
  | zero =>
    have hidx : index = i := by omega
    subst hidx
    rw [FindTextureID.loop, if_pos ⟨hi, rfl⟩, if_pos htag, FindTextureID_loop_done]
  | succ d ih =>
    have hlt : index < sm.m_loadedTextures := by omega
    have hne0 := hne index le_rfl (by omega)
    rw [FindTextureID.loop, if_pos ⟨hlt, rfl⟩, if_neg hne0]
    exact ih textureID (index + 1) (by omega) (fun j h1 h2 => hne j (by omega) h2) (by omega)

theorem FindTextureID_loop_absent (sm : SceneManager α) (tag : String) (textureID : Int)
    (index : Nat)
    (hne : ∀ j, index ≤ j → j < sm.m_loadedTextures →
      (sm.m_textureIDs.getD j default).tag ≠ tag) :
    FindTextureID.loop sm tag textureID index false = textureID := by
  generalize hd : sm.m_loadedTextures - index = d
  induction d generalizing index with
  | zero =>
    have hge : ¬ index < sm.m_loadedTextures := by omega
    rw [FindTextureID.loop]
    simp [hge]
  | succ d ih =>
    have hlt : index < sm.m_loadedTextures := by omega
    have hne0 := hne index le_rfl hlt
    rw [FindTextureID.loop, if_pos ⟨hlt, rfl⟩, if_neg hne0]
    exact ih (index + 1) (fun j h1 h2 => hne j (by omega) h2) (by omega)

/-- When some registered entry carries the tag there is a first such index. -/
theorem SceneManager.exists_first (sm : SceneManager α) (tag : String)
    (hwf : sm.m_loadedTextures ≤ sm.m_textureIDs.length)
    (hex : ∃ e ∈ sm.registry, e.tag = tag) :
    ∃ i, i < sm.m_loadedTextures ∧ (sm.m_textureIDs.getD i default).tag = tag ∧
      ∀ j, j < i → (sm.m_textureIDs.getD j default).tag ≠ tag := by
  classical
  have hex2 : ∃ i, i < sm.m_loadedTextures ∧ (sm.m_textureIDs.getD i default).tag = tag := by
    obtain ⟨e, hmem, he⟩ := hex
    obtain ⟨i, hi⟩ := List.getElem?_of_mem hmem
    obtain ⟨h1, h2⟩ := sm.registry_getElem?_lt hwf i e hi
    exact ⟨i, h1, by rw [h2]; exact he⟩
  refine ⟨Nat.find hex2, (Nat.find_spec hex2).1, (Nat.find_spec hex2).2, ?_⟩
  intro j hj hcon
  have hjn : j < sm.m_loadedTextures := lt_trans hj (Nat.find_spec hex2).1
  exact Nat.find_min hex2 hj ⟨hjn, hcon⟩

theorem SceneManager.absent_getD (sm : SceneManager α) (tag : String)
    (hwf : sm.m_loadedTextures ≤ sm.m_textureIDs.length)
    (hno : ∀ e ∈ sm.registry, e.tag ≠ tag) :
    ∀ j, 0 ≤ j → j < sm.m_loadedTextures → (sm.m_textureIDs.getD j default).tag ≠ tag := by
  intro j _ hj
  exact hno _ (List.getElem?_mem (sm.registry_getElem? hwf j hj))

theorem FindTextureSlot_of_first (sm : SceneManager α) (tag : String) (i : Nat)
    (hi : i < sm.m_loadedTextures) (htag : (sm.m_textureIDs.getD i default).tag = tag)
    (hne : ∀ j, j < i → (sm.m_textureIDs.getD j default).tag ≠ tag) :
    FindTextureSlot sm tag = (i : Int) :=
  FindTextureSlot_loop_found sm tag (-1) i hi htag 0 (Nat.zero_le i) (fun j _ hj => hne j hj)

theorem FindTextureID_of_first (sm : SceneManager α) (tag : String) (i : Nat)
    (hi : i < sm.m_loadedTextures) (htag : (sm.m_textureIDs.getD i default).tag = tag)
    (hne : ∀ j, j < i → (sm.m_textureIDs.getD j default).tag ≠ tag) :
    FindTextureID sm tag = intOfGLuint (sm.m_textureIDs.getD i default).ID :=
  FindTextureID_loop_found sm tag (-1) i hi htag 0 (Nat.zero_le i) (fun j _ hj => hne j hj)

theorem FindTextureSlot_of_absent (sm : SceneManager α) (tag : String)
    (hne : ∀ j, j < sm.m_loadedTextures → (sm.m_textureIDs.getD j default).tag ≠ tag) :
    FindTextureSlot sm tag = -1 :=
  FindTextureSlot_loop_absent sm tag (-1) 0 (fun j _ hj => hne j hj)

theorem FindTextureID_of_absent (sm : SceneManager α) (tag : String)
    (hne : ∀ j, j < sm.m_loadedTextures → (sm.m_textureIDs.getD j default).tag ≠ tag) :
    FindTextureID sm tag = -1 :=
  FindTextureID_loop_absent sm tag (-1) 0 (fun j _ hj => hne j hj)

theorem intOfGLuint_small (u : Nat) (h : u < 2 ^ 31) : intOfGLuint u = (u : Int) := by
  have h1 : u % 2 ^ 32 = u := Nat.mod_eq_of_lt (by omega)
  unfold intOfGLuint
  rw [h1, if_pos h]

theorem CreateGLTexture.register_inv (sm sm1 : SceneManager α) (textureID : Nat) (tag : String)
    (b : Bool) (h : CreateGLTexture.register sm textureID tag = some (b, sm1)) :
    sm.m_loadedTextures < sm.m_textureIDs.length ∧
    sm1 = { sm with
      m_textureIDs := sm.m_textureIDs.set sm.m_loadedTextures { tag := tag, ID := textureID }
      m_loadedTextures := sm.m_loadedTextures + 1 } := by
  unfold CreateGLTexture.register at h
  by_cases hcap : sm.m_loadedTextures < sm.m_textureIDs.length
  · rw [if_pos hcap] at h
    injection h with h
    injection h with _ h2
    exact ⟨hcap, h2.symm⟩
  · rw [if_neg hcap] at h
    cases h

theorem CreateGLTexture_true_inv (stbi_load : String → Option DecodedImage)
    (glGenTextures : Nat) (sm sm1 : SceneManager α) (filename tag : String)
    (h : CreateGLTexture stbi_load glGenTextures sm filename tag = some (true, sm1)) :
    sm.m_loadedTextures < sm.m_textureIDs.length ∧
    sm1 = { sm with
      m_textureIDs := sm.m_textureIDs.set sm.m_loadedTextures
        { tag := tag, ID := glGenTextures }
      m_loadedTextures := sm.m_loadedTextures + 1 } := by
  unfold CreateGLTexture at h
  cases hdec : stbi_load filename with
  | none =>
    rw [hdec] at h
    simp at h
  | some image =>
    rw [hdec] at h
    simp only at h
    by_cases h3 : image.colorChannels = 3
    · rw [if_pos h3] at h
      exact CreateGLTexture.register_inv sm sm1 glGenTextures tag true h
    · rw [if_neg h3] at h
      by_cases h4 : image.colorChannels = 4
      · rw [if_pos h4] at h
        exact CreateGLTexture.register_inv sm sm1 glGenTextures tag true h
      · rw [if_neg h4] at h
        simp at h

theorem getD_set_ne (l : List TEXTURE_INFO) (i j : Nat) (a d : TEXTURE_INFO) (h : i ≠ j) :
    (l.set i a).getD j d = l.getD j d := by
  rw [List.getD_eq_getElem?_getD, List.getD_eq_getElem?_getD, List.getElem?_set_ne h]

theorem getD_set_eq (l : List TEXTURE_INFO) (i : Nat) (a d : TEXTURE_INFO) (h : i < l.length) :
    (l.set i a).getD i d = a := by
  rw [List.getD_eq_getElem?_getD, List.getElem?_set, if_pos rfl, if_pos h]
  rfl

/-! ## Claims on the texture registry -/

/-- C2: on a registry whose count does not exceed the capacity,
`FindTextureSlot tag` is the zero-based index of the first registered entry
carrying `tag` when there is one (so the insertion index of every entry when
the tags are pairwise distinct), and the sentinel `-1` when no registered
entry carries `tag`; tags are compared as exact strings. -/
theorem FindTextureSlot_first_match (sm : SceneManager α) (tag : String)
    (hwf : sm.m_loadedTextures ≤ sm.m_textureIDs.length) :
    ((∃ e ∈ sm.registry, e.tag = tag) →
      ∃ (i : Nat) (e : TEXTURE_INFO), FindTextureSlot sm tag = (i : Int) ∧ sm.registry[i]? = some e ∧ e.tag = tag ∧
        ∀ (j : Nat) (e' : TEXTURE_INFO), j < i → sm.registry[j]? = some e' → e'.tag ≠ tag) ∧
    ((sm.registry.map TEXTURE_INFO.tag).Nodup →
      ∀ (i : Nat) (e : TEXTURE_INFO), sm.registry[i]? = some e → e.tag = tag → FindTextureSlot sm tag = (i : Int)) ∧
    ((∀ e ∈ sm.registry, e.tag ≠ tag) → FindTextureSlot sm tag = -1) := by
  refine ⟨?_, ?_, ?_⟩
  · intro hex
    obtain ⟨i, hi, htag, hne⟩ := sm.exists_first tag hwf hex
    refine ⟨i, sm.m_textureIDs.getD i default, FindTextureSlot_of_first sm tag i hi htag hne,
      sm.registry_getElem? hwf i hi, htag, ?_⟩
    intro j e' hj he'
    obtain ⟨_, h2⟩ := sm.registry_getElem?_lt hwf j e' he'
    rw [← h2]
    exact hne j hj
  · intro hnd i e hie htag
    obtain ⟨hi, h2⟩ := sm.registry_getElem?_lt hwf i e hie
    refine FindTextureSlot_of_first sm tag i hi (by rw [h2]; exact htag) ?_
    intro j hj hcon
    have hjn : j < sm.m_loadedTextures := lt_trans hj hi
    have hlen : j < (sm.registry.map TEXTURE_INFO.tag).length := by
      simp [sm.registry_length hwf, hjn]
    have heq : (sm.registry.map TEXTURE_INFO.tag)[j]? = (sm.registry.map TEXTURE_INFO.tag)[i]? := by
      rw [List.getElem?_map, List.getElem?_map, sm.registry_getElem? hwf j hjn, hie]
      simp only [Option.map_some']
      rw [hcon, htag]
    have := List.getElem?_inj hlen hnd heq
    omega
  · intro hno
    exact FindTextureSlot_of_absent sm tag (fun j hj => sm.absent_getD tag hwf hno j (Nat.zero_le j) hj)

/-- Witness for C2 on `demoRegistry`: the tag "ruler" is found at its
insertion index 2, and the differently capitalised "Ruler" is not found. -/
theorem FindTextureSlot_first_match_witness :
    demoRegistry.m_loadedTextures ≤ demoRegistry.m_textureIDs.length ∧
    FindTextureSlot demoRegistry "ruler" = 2 ∧ FindTextureSlot demoRegistry "Ruler" = -1 :=
  ⟨by decide,
   (FindTextureSlot_first_match demoRegistry "ruler" (by decide)).2.1 (by decide) 2
      ⟨"ruler", 13⟩ (by decide) rfl,
   (FindTextureSlot_first_match demoRegistry "Ruler" (by decide)).2.2 (by decide)⟩

/-- C3: on a registry whose count does not exceed the capacity,
`FindTextureID tag` is the handle stored in the first registered entry
carrying `tag`, the entry at index `FindTextureSlot tag`, when there is one;
the `GLuint` handle is returned as an `int`, which is the same number for
every handle below `2^31`. When no registered entry carries `tag` the result
is `-1`. The stored handle is the one recorded at load time: after a
successful `CreateGLTexture` under a tag absent before, the lookup of that
tag returns the handle that OpenGL handed out for it. -/
theorem FindTextureID_first_match (sm : SceneManager α) (tag : String)
    (hwf : sm.m_loadedTextures ≤ sm.m_textureIDs.length) :
    ((∃ e ∈ sm.registry, e.tag = tag) →
      ∃ (i : Nat) (e : TEXTURE_INFO), FindTextureSlot sm tag = (i : Int) ∧ sm.registry[i]? = some e ∧ e.tag = tag ∧
        (∀ (j : Nat) (e' : TEXTURE_INFO), j < i → sm.registry[j]? = some e' → e'.tag ≠ tag) ∧
        FindTextureID sm tag = intOfGLuint e.ID ∧
        (e.ID < 2 ^ 31 → FindTextureID sm tag = (e.ID : Int))) ∧
    ((∀ e ∈ sm.registry, e.tag ≠ tag) → FindTextureID sm tag = -1) ∧
    (∀ (stbi_load : String → Option DecodedImage) (glGenTextures : Nat) (filename : String)
        (sm1 : SceneManager α),
      CreateGLTexture stbi_load glGenTextures sm filename tag = some (true, sm1) →
      (∀ e ∈ sm.registry, e.tag ≠ tag) →
      FindTextureID sm1 tag = intOfGLuint glGenTextures) := by
  refine ⟨?_, ?_, ?_⟩
  · intro hex
    obtain ⟨i, hi, htag, hne⟩ := sm.exists_first tag hwf hex
    have hid := FindTextureID_of_first sm tag i hi htag hne
    refine ⟨i, sm.m_textureIDs.getD i default, FindTextureSlot_of_first sm tag i hi htag hne,
      sm.registry_getElem? hwf i hi, htag, ?_, hid, ?_⟩
    · intro j e' hj he'
      obtain ⟨_, h2⟩ := sm.registry_getElem?_lt hwf j e' he'
      rw [← h2]
      exact hne j hj
    · intro hsmall
      rw [hid, intOfGLuint_small _ hsmall]
  · intro hno
    exact FindTextureID_of_absent sm tag (fun j hj => sm.absent_getD tag hwf hno j (Nat.zero_le j) hj)
  · intro stbi_load gl filename sm1 hload hno
    obtain ⟨hcap, hsm1⟩ := CreateGLTexture_true_inv stbi_load gl sm sm1 filename tag hload
    subst hsm1
    have h := FindTextureID_of_first
      ({ sm with
          m_textureIDs := sm.m_textureIDs.set sm.m_loadedTextures { tag := tag, ID := gl }
          m_loadedTextures := sm.m_loadedTextures + 1 } : SceneManager α)
      tag sm.m_loadedTextures (Nat.lt_succ_self _)
      (by simp only; rw [getD_set_eq _ _ _ _ hcap])
      (by
        intro j hj
        simp only
        rw [getD_set_ne _ _ _ _ _ (by omega)]
        exact sm.absent_getD tag hwf hno j (Nat.zero_le j) hj)
    rw [h]
    simp only
    rw [getD_set_eq _ _ _ _ hcap]

/-- Witness for C3 on `demoRegistry`: "starbucks" is registered with the
handle 12, which is what the lookup returns, and an unregistered tag gives
the sentinel. -/
theorem FindTextureID_first_match_witness :
    demoRegistry.m_loadedTextures ≤ demoRegistry.m_textureIDs.length ∧
    FindTextureID demoRegistry "starbucks" = 12 ∧
    FindTextureID demoRegistry "nonexistent" = -1 := by
  refine ⟨by decide, ?_, ?_⟩
  · obtain ⟨i, e, hslot, hreg, _, _, _, hsmall⟩ :=
      (FindTextureID_first_match demoRegistry "starbucks" (by decide)).1
        ⟨⟨"starbucks", 12⟩, by decide, rfl⟩
    have h1 : FindTextureSlot demoRegistry "starbucks" = ((1 : Nat) : Int) :=
      FindTextureSlot_of_first demoRegistry "starbucks" 1 (by decide) (by decide) (by decide)
    have hi : i = 1 := by
      rw [h1] at hslot
      exact_mod_cast hslot.symm
    subst hi
    have he : e = ⟨"starbucks", 12⟩ := by
      have h2 : demoRegistry.registry[1]? = some ⟨"starbucks", 12⟩ := by decide
      rw [h2] at hreg
      exact (Option.some.inj hreg).symm
    subst he
    exact hsmall (by norm_num)
  · exact (FindTextureID_first_match demoRegistry "nonexistent" (by decide)).2.1 (by decide)

/-! ## Claims on loading a texture -/

theorem CreateGLTexture.register_ok (sm : SceneManager α) (textureID : Nat) (tag : String)
    (hcap : sm.m_loadedTextures < sm.m_textureIDs.length) :
    CreateGLTexture.register sm textureID tag = some (true,
      { sm with
        m_textureIDs := sm.m_textureIDs.set sm.m_loadedTextures { tag := tag, ID := textureID }
        m_loadedTextures := sm.m_loadedTextures + 1 }) := by
  unfold CreateGLTexture.register
  rw [if_pos hcap]

theorem CreateGLTexture_ok (stbi_load : String → Option DecodedImage) (glGenTextures : Nat)
    (sm : SceneManager α) (filename tag : String) (image : DecodedImage)
    (hdec : stbi_load filename = some image)
    (hch : image.colorChannels = 3 ∨ image.colorChannels = 4)
    (hcap : sm.m_loadedTextures < sm.m_textureIDs.length) :
    CreateGLTexture stbi_load glGenTextures sm filename tag = some (true,
      { sm with
        m_textureIDs := sm.m_textureIDs.set sm.m_loadedTextures { tag := tag, ID := glGenTextures }
        m_loadedTextures := sm.m_loadedTextures + 1 }) := by
  unfold CreateGLTexture
  rw [hdec]
  rcases hch with h3 | h4
  · simp only [h3, if_true]
    exact CreateGLTexture.register_ok sm glGenTextures tag hcap
  · by_cases h3 : image.colorChannels = 3
    · simp only [h3, if_true]
      exact CreateGLTexture.register_ok sm glGenTextures tag hcap
    · simp only [h3, h4, if_true, if_false]
      exact CreateGLTexture.register_ok sm glGenTextures tag hcap

/-- C4: when the image does not decode, or decodes with a channel count
other than 3 and 4, `CreateGLTexture` returns `false` and the scene manager
(entry count, tags and handles at every index) is exactly what it was. -/
theorem CreateGLTexture_rejects (stbi_load : String → Option DecodedImage) (glGenTextures : Nat)
    (sm : SceneManager α) (filename tag : String)
    (hbad : stbi_load filename = none ∨
      ∃ image, stbi_load filename = some image ∧
        image.colorChannels ≠ 3 ∧ image.colorChannels ≠ 4) :
    CreateGLTexture stbi_load glGenTextures sm filename tag = some (false, sm) := by
  unfold CreateGLTexture
  rcases hbad with hnone | ⟨image, hsome, h3, h4⟩
  · rw [hnone]
  · rw [hsome]
    simp only [h3, h4, if_false]

/-- Witness for C4: a missing file, a one-channel image and a two-channel
image are all rejected on `demoRegistry`, which stays as it was. -/
theorem CreateGLTexture_rejects_witness :
    CreateGLTexture demoDecoder 14 demoRegistry "missing.png" "t" = some (false, demoRegistry) ∧
    CreateGLTexture demoDecoder 14 demoRegistry "grey.png" "t" = some (false, demoRegistry) ∧
    CreateGLTexture demoDecoder 14 demoRegistry "greyalpha.png" "t"
      = some (false, demoRegistry) :=
  ⟨CreateGLTexture_rejects demoDecoder 14 demoRegistry "missing.png" "t" (Or.inl (by decide)),
   CreateGLTexture_rejects demoDecoder 14 demoRegistry "grey.png" "t"
     (Or.inr ⟨⟨4, 4, 1⟩, by decide, by decide, by decide⟩),
   CreateGLTexture_rejects demoDecoder 14 demoRegistry "greyalpha.png" "t"
     (Or.inr ⟨⟨4, 4, 2⟩, by decide, by decide, by decide⟩)⟩

theorem take_set_self (l : List TEXTURE_INFO) (n : Nat) (a : TEXTURE_INFO) :
    (l.set n a).take n = l.take n := by
  rw [List.set_take]
  exact List.set_eq_of_length_le (by simp)

theorem registry_after_register (sm : SceneManager α) (a : TEXTURE_INFO)
    (hcap : sm.m_loadedTextures < sm.m_textureIDs.length) :
    SceneManager.registry
      { sm with
        m_textureIDs := sm.m_textureIDs.set sm.m_loadedTextures a
        m_loadedTextures := sm.m_loadedTextures + 1 } = sm.registry ++ [a] := by
  unfold SceneManager.registry
  simp only
  rw [List.take_succ, take_set_self, List.getElem?_set, if_pos rfl, if_pos hcap]
  rfl

/-- C5: on a registry with `n` entries, `n` below the capacity, and an image
that decodes with 3 or 4 channels, `CreateGLTexture file tag` returns `true`;
the array keeps its elements at every index other than `n`, holds
`{tag, new handle}` at index `n`, and the count is `n + 1` (the registered
sequence is the old one with the new entry appended; the shader and the
materials are untouched). Loading the same file again under a second tag,
with both tags different and absent before and room for the second entry,
succeeds too, and `FindTextureSlot` then gives `n` and `n + 1`. -/
theorem CreateGLTexture_appends (stbi_load : String → Option DecodedImage)
    (glGenTextures : Nat) (sm : SceneManager α) (filename tag : String) (image : DecodedImage)
    (hdec : stbi_load filename = some image)
    (hch : image.colorChannels = 3 ∨ image.colorChannels = 4)
    (hcap : sm.m_loadedTextures < sm.m_textureIDs.length) :
    ∃ sm1 : SceneManager α,
      CreateGLTexture stbi_load glGenTextures sm filename tag = some (true, sm1) ∧
      sm1.m_loadedTextures = sm.m_loadedTextures + 1 ∧
      sm1.m_textureIDs.length = sm.m_textureIDs.length ∧
      (∀ i : Nat, i ≠ sm.m_loadedTextures → sm1.m_textureIDs[i]? = sm.m_textureIDs[i]?) ∧
      sm1.m_textureIDs[sm.m_loadedTextures]? = some { tag := tag, ID := glGenTextures } ∧
      sm1.registry = sm.registry ++ [{ tag := tag, ID := glGenTextures }] ∧
      sm1.m_pShaderManager = sm.m_pShaderManager ∧
      sm1.m_objectMaterials = sm.m_objectMaterials ∧
      ∀ (glGenTextures2 : Nat) (tag2 : String), tag ≠ tag2 →
        (∀ e ∈ sm.registry, e.tag ≠ tag ∧ e.tag ≠ tag2) →
        sm.m_loadedTextures + 1 < sm.m_textureIDs.length →
        ∃ sm2 : SceneManager α,
          CreateGLTexture stbi_load glGenTextures2 sm1 filename tag2 = some (true, sm2) ∧
          sm2.registry = sm.registry ++
            [{ tag := tag, ID := glGenTextures }, { tag := tag2, ID := glGenTextures2 }] ∧
          FindTextureSlot sm2 tag = (sm.m_loadedTextures : Int) ∧
          FindTextureSlot sm2 tag2 = (sm.m_loadedTextures : Int) + 1 := by
  refine ⟨_, CreateGLTexture_ok stbi_load glGenTextures sm filename tag image hdec hch hcap,
    rfl, by simp, ?_, ?_, registry_after_register sm _ hcap, rfl, rfl, ?_⟩
  · intro i hi
    exact List.getElem?_set_ne (Ne.symm hi)
  · simp only
    rw [List.getElem?_set, if_pos rfl, if_pos hcap]
  · intro gl2 tag2 hne hfresh hcap2
    have hcap1 : sm.m_loadedTextures + 1 < (sm.m_textureIDs.set sm.m_loadedTextures
        { tag := tag, ID := glGenTextures }).length := by
      simpa using hcap2
    have hold : ∀ j, j < sm.m_loadedTextures →
        (sm.m_textureIDs.getD j default).tag ≠ tag ∧
        (sm.m_textureIDs.getD j default).tag ≠ tag2 := fun j hj =>
      hfresh _ (List.getElem?_mem (sm.registry_getElem? (le_of_lt hcap) j hj))
    refine ⟨_, CreateGLTexture_ok stbi_load gl2 _ filename tag2 image hdec hch hcap1, ?_, ?_, ?_⟩
    · rw [registry_after_register _ _ hcap1, registry_after_register sm _ hcap]
      simp
    · refine FindTextureSlot_of_first _ tag sm.m_loadedTextures
        (show sm.m_loadedTextures < sm.m_loadedTextures + 1 + 1 by omega) ?_ ?_
      · simp only
        rw [getD_set_ne _ _ _ _ _ (by omega), getD_set_eq _ _ _ _ hcap]
      · intro j hj
        simp only
        rw [getD_set_ne _ _ _ _ _ (by omega), getD_set_ne _ _ _ _ _ (by omega)]
        exact (hold j hj).1
    · have hgoal := FindTextureSlot_of_first
        ({ sm with
            m_textureIDs := (sm.m_textureIDs.set sm.m_loadedTextures
              { tag := tag, ID := glGenTextures }).set (sm.m_loadedTextures + 1)
              { tag := tag2, ID := gl2 }
            m_loadedTextures := sm.m_loadedTextures + 1 + 1 } : SceneManager α)
        tag2 (sm.m_loadedTextures + 1)
        (show sm.m_loadedTextures + 1 < sm.m_loadedTextures + 1 + 1 by omega)
        (by simp only; rw [getD_set_eq _ _ _ _ hcap1])
        (by
          intro j hj
          simp only
          rw [getD_set_ne _ _ _ _ _ (by omega)]
          by_cases hjn : j = sm.m_loadedTextures
          · subst hjn
            rw [getD_set_eq _ _ _ _ hcap]
            exact hne
          · rw [getD_set_ne _ _ _ _ _ (fun h => hjn h.symm)]
            exact (hold j (by omega)).2)
      rw [hgoal]
      push_cast
      rfl

/-- Witness for C5: `demoRegistry` has three entries and capacity five; the
three-channel image loads under the new tag "cup" into slot 3, and once more
under "mug" into slot 4. -/
theorem CreateGLTexture_appends_witness :
    ∃ sm1 sm2 : SceneManager ℚ,
      CreateGLTexture demoDecoder 14 demoRegistry "rgb.png" "cup" = some (true, sm1) ∧
      sm1.m_loadedTextures = 4 ∧
      sm1.registry = [⟨"sharpie", 11⟩, ⟨"starbucks", 12⟩, ⟨"ruler", 13⟩, ⟨"cup", 14⟩] ∧
      CreateGLTexture demoDecoder 15 sm1 "rgb.png" "mug" = some (true, sm2) ∧
      FindTextureSlot sm2 "cup" = 3 ∧ FindTextureSlot sm2 "mug" = 4 := by
  obtain ⟨sm1, h1, h2, _, _, _, h3, _, _, h4⟩ :=
    CreateGLTexture_appends demoDecoder 14 demoRegistry "rgb.png" "cup" ⟨4, 4, 3⟩
      (by decide) (Or.inl rfl) (by decide)
  obtain ⟨sm2, h5, _, h6, h7⟩ := h4 15 "mug" (by decide) (by decide) (by decide)
  exact ⟨sm1, sm2, h1, h2, by rw [h3]; decide, h5, h6, h7⟩

/-! ## Lemmas on the material catalog -/

theorem FindMaterial_loop_done (sm : SceneManager α) (tag : String)
    (material : OBJECT_MATERIAL α) (index : Nat) :
    FindMaterial.loop sm tag material index true = material := by
  rw [FindMaterial.loop]; simp

theorem FindMaterial_loop_found (sm : SceneManager α) (tag : String)
    (material : OBJECT_MATERIAL α) (i : Nat) (hi : i < sm.m_objectMaterials.length)
    (htag : sm.m_objectMaterials[i].tag = tag) (index : Nat) (hle : index ≤ i)
    (hne : ∀ j (hj : j < sm.m_objectMaterials.length), index ≤ j → j < i →
      sm.m_objectMaterials[j].tag ≠ tag) :
    FindMaterial.loop sm tag material index false
      = material.assignFrom sm.m_objectMaterials[i] := by
  generalize hd : i - index = d
  induction d generalizing index with
  | zero =>
    have hidx : index = i := by omega
    subst hidx
    rw [FindMaterial.loop, dif_pos ⟨hi, rfl⟩]
    simp only
    rw [if_pos htag, FindMaterial_loop_done]
    rfl
  | succ d ih =>
    have hlt : index < sm.m_objectMaterials.length := by omega
    have hne0 := hne index hlt le_rfl (by omega)
    rw [FindMaterial.loop, dif_pos ⟨hlt, rfl⟩]
    simp only
    rw [if_neg hne0]
    exact ih (index + 1) (by omega) (fun j hj h1 h2 => hne j hj (by omega) h2) (by omega)

theorem FindMaterial_loop_absent (sm : SceneManager α) (tag : String)
    (material : OBJECT_MATERIAL α) (index : Nat)
    (hne : ∀ j (hj : j < sm.m_objectMaterials.length), index ≤ j →
      sm.m_objectMaterials[j].tag ≠ tag) :
    FindMaterial.loop sm tag material index false = material := by
  generalize hd : sm.m_objectMaterials.length - index = d
  induction d generalizing index with
  | zero =>
    have hge : ¬ (index < sm.m_objectMaterials.length ∧ false = false) := by
      intro h; omega
    rw [FindMaterial.loop, dif_neg hge]
  | succ d ih =>
    have hlt : index < sm.m_objectMaterials.length := by omega
    have hne0 := hne index hlt le_rfl
    rw [FindMaterial.loop, dif_pos ⟨hlt, rfl⟩]
    simp only
    rw [if_neg hne0]
    exact ih (index + 1) (fun j hj h1 => hne j hj (by omega)) (by omega)

/-- On a non-empty catalog without the tag, `FindMaterial` still reports
`true` and hands back the output parameter as it received it. -/
theorem FindMaterial_absent (sm : SceneManager α) (tag : String) (material : OBJECT_MATERIAL α)
    (hsize : sm.m_objectMaterials.length ≠ 0)
    (habs : ∀ m ∈ sm.m_objectMaterials, m.tag ≠ tag) :
    FindMaterial sm tag material = (true, material) := by
  unfold FindMaterial
  rw [if_neg hsize, FindMaterial_loop_absent sm tag material 0
    (fun j hj _ => habs _ (List.getElem_mem hj))]

theorem SetShaderMaterial_absent (sm : SceneManager α) (s : ShaderManager α) (tag : String)
    (material : OBJECT_MATERIAL α) (hs : sm.m_pShaderManager = some s)
    (hsize : sm.m_objectMaterials.length ≠ 0)
    (habs : ∀ m ∈ sm.m_objectMaterials, m.tag ≠ tag) :
    SetShaderMaterial sm tag material
      = some { sm with m_pShaderManager := some (s.writeMaterial material) } := by
  unfold SetShaderMaterial
  rw [if_pos (Nat.pos_of_ne_zero hsize)]
  simp only [FindMaterial_absent sm tag material hsize habs, if_true, hs]
  rfl

theorem SetShaderMaterial_found (sm : SceneManager α) (s : ShaderManager α) (tag : String)
    (material : OBJECT_MATERIAL α) (hs : sm.m_pShaderManager = some s)
    (i : Nat) (hi : i < sm.m_objectMaterials.length)
    (htag : sm.m_objectMaterials[i].tag = tag)
    (hne : ∀ j (hj : j < sm.m_objectMaterials.length), j < i →
      sm.m_objectMaterials[j].tag ≠ tag) :
    SetShaderMaterial sm tag material
      = some { sm with
          m_pShaderManager := some
            (s.writeMaterial (material.assignFrom sm.m_objectMaterials[i])) } := by
  have hsize : sm.m_objectMaterials.length ≠ 0 := by omega
  unfold SetShaderMaterial
  rw [if_pos (Nat.pos_of_ne_zero hsize)]
  unfold FindMaterial
  rw [if_neg hsize, FindMaterial_loop_found sm tag material i hi htag 0 (Nat.zero_le i)
    (fun j hj _ h2 => hne j hj h2)]
  simp only [if_true, hs]
  rfl

theorem uniform_writeMaterial (s : ShaderManager α) (m : OBJECT_MATERIAL α) :
    (s.writeMaterial m).uniforms "material.ambientColor" = some (.vec3Val m.ambientColor) ∧
    (s.writeMaterial m).uniforms "material.ambientStrength"
      = some (.floatVal m.ambientStrength) ∧
    (s.writeMaterial m).uniforms "material.diffuseColor" = some (.vec3Val m.diffuseColor) ∧
    (s.writeMaterial m).uniforms "material.specularColor" = some (.vec3Val m.specularColor) ∧
    (s.writeMaterial m).uniforms "material.shininess" = some (.floatVal m.shininess) := by
  refine ⟨?_, ?_, ?_, ?_, ?_⟩ <;>
    simp [ShaderManager.writeMaterial, ShaderManager.setVec3Value, ShaderManager.setFloatValue,
      ShaderManager.write]

theorem preparedScene_length : 4 < preparedScene.m_objectMaterials.length := by decide

theorem preparedScene_wood_at : preparedScene.m_objectMaterials[4].tag = "wood" := by decide

theorem preparedScene_wood_first :
    ∀ j (hj : j < preparedScene.m_objectMaterials.length), j < 4 →
      preparedScene.m_objectMaterials[j].tag ≠ "wood" := by decide

theorem preparedScene_nonempty : preparedScene.m_objectMaterials.length ≠ 0 := by decide

theorem preparedScene_no_nonexistent :
    ∀ m ∈ preparedScene.m_objectMaterials, m.tag ≠ "nonexistent" := by decide

theorem preparedScene_wood (s : ShaderManager ℚ) (u0 : OBJECT_MATERIAL ℚ) :
    SetShaderMaterial { preparedScene with m_pShaderManager := some s } "wood" u0
      = some { preparedScene with
          m_pShaderManager := some (s.writeMaterial
            { ambientColor := ⟨0.6, 0.4, 0.2⟩, ambientStrength := 0.5,
              diffuseColor := ⟨0.7, 0.5, 0.3⟩, specularColor := ⟨0.3, 0.3, 0.3⟩,
              shininess := 20.0, tag := u0.tag }) } := by
  rw [SetShaderMaterial_found { preparedScene with m_pShaderManager := some s } s "wood" u0 rfl 4
    preparedScene_length preparedScene_wood_at preparedScene_wood_first]
  rfl

/-! ## Claim on the material fallback -/

/-- C1 (evaluation of the code): on the catalog built by
`DefineObjectMaterials`, `SetShaderMaterial "wood"` writes wood's five values,
and a following `SetShaderMaterial "nonexistent"` writes all five material
uniforms again, with the contents of its own uninitialised local variable
`u`, whatever they are: `FindMaterial` returns `true` on every non-empty
catalog. With an all-zero local the shininess goes from 20 to 0. -/
theorem SetShaderMaterial_unknown_tag_overwrites :
    (∀ (s : ShaderManager ℚ) (u0 u : OBJECT_MATERIAL ℚ), ∃ sm1 sm2 : SceneManager ℚ,
      SetShaderMaterial { preparedScene with m_pShaderManager := some s } "wood" u0 = some sm1 ∧
      SetShaderMaterial sm1 "nonexistent" u = some sm2 ∧
      sm1.uniform "material.ambientColor" = some (.vec3Val ⟨0.6, 0.4, 0.2⟩) ∧
      sm1.uniform "material.ambientStrength" = some (.floatVal 0.5) ∧
      sm1.uniform "material.diffuseColor" = some (.vec3Val ⟨0.7, 0.5, 0.3⟩) ∧
      sm1.uniform "material.specularColor" = some (.vec3Val ⟨0.3, 0.3, 0.3⟩) ∧
      sm1.uniform "material.shininess" = some (.floatVal 20.0) ∧
      sm2.uniform "material.ambientColor" = some (.vec3Val u.ambientColor) ∧
      sm2.uniform "material.ambientStrength" = some (.floatVal u.ambientStrength) ∧
      sm2.uniform "material.diffuseColor" = some (.vec3Val u.diffuseColor) ∧
      sm2.uniform "material.specularColor" = some (.vec3Val u.specularColor) ∧
      sm2.uniform "material.shininess" = some (.floatVal u.shininess)) ∧
    (∃ sm1 sm2 : SceneManager ℚ,
      SetShaderMaterial preparedScene "wood" zeroMaterial = some sm1 ∧
      SetShaderMaterial sm1 "nonexistent" zeroMaterial = some sm2 ∧
      sm1.uniform "material.shininess" = some (.floatVal 20) ∧
      sm2.uniform "material.shininess" = some (.floatVal 0) ∧
      sm2.uniform "material.shininess" ≠ sm1.uniform "material.shininess") := by
  have key : ∀ (s : ShaderManager ℚ) (u0 u : OBJECT_MATERIAL ℚ), ∃ sm1 sm2 : SceneManager ℚ,
      SetShaderMaterial { preparedScene with m_pShaderManager := some s } "wood" u0 = some sm1 ∧
      SetShaderMaterial sm1 "nonexistent" u = some sm2 ∧
      sm1.uniform "material.ambientColor" = some (.vec3Val ⟨0.6, 0.4, 0.2⟩) ∧
      sm1.uniform "material.ambientStrength" = some (.floatVal 0.5) ∧
      sm1.uniform "material.diffuseColor" = some (.vec3Val ⟨0.7, 0.5, 0.3⟩) ∧
      sm1.uniform "material.specularColor" = some (.vec3Val ⟨0.3, 0.3, 0.3⟩) ∧
      sm1.uniform "material.shininess" = some (.floatVal 20.0) ∧
      sm2.uniform "material.ambientColor" = some (.vec3Val u.ambientColor) ∧
      sm2.uniform "material.ambientStrength" = some (.floatVal u.ambientStrength) ∧
      sm2.uniform "material.diffuseColor" = some (.vec3Val u.diffuseColor) ∧
      sm2.uniform "material.specularColor" = some (.vec3Val u.specularColor) ∧
      sm2.uniform "material.shininess" = some (.floatVal u.shininess) := by
    intro s u0 u
    obtain ⟨a1, a2, a3, a4, a5⟩ := uniform_writeMaterial s
      ({ ambientColor := ⟨0.6, 0.4, 0.2⟩, ambientStrength := 0.5,
         diffuseColor := ⟨0.7, 0.5, 0.3⟩, specularColor := ⟨0.3, 0.3, 0.3⟩,
         shininess := 20.0, tag := u0.tag } : OBJECT_MATERIAL ℚ)
    obtain ⟨b1, b2, b3, b4, b5⟩ := uniform_writeMaterial (s.writeMaterial
      ({ ambientColor := ⟨0.6, 0.4, 0.2⟩, ambientStrength := 0.5,
         diffuseColor := ⟨0.7, 0.5, 0.3⟩, specularColor := ⟨0.3, 0.3, 0.3⟩,
         shininess := 20.0, tag := u0.tag } : OBJECT_MATERIAL ℚ)) u
    exact ⟨_, _, preparedScene_wood s u0,
      SetShaderMaterial_absent _ _ "nonexistent" u rfl preparedScene_nonempty
        preparedScene_no_nonexistent,
      a1, a2, a3, a4, a5, b1, b2, b3, b4, b5⟩
  refine ⟨key, ?_⟩
  obtain ⟨sm1, sm2, h1, h2, _, _, _, _, h3, _, _, _, _, h4⟩ :=
    key { uniforms := fun _ => none } zeroMaterial zeroMaterial
  refine ⟨sm1, sm2, h1, h2, ?_, h4, ?_⟩
  · rw [h3]; norm_num
  · rw [h3, h4]
    intro h
    injection h with h
    injection h with h
    norm_num [zeroMaterial] at h

/-! ## Claims on the shading mode -/

theorem SetShaderColor_shader (sm : SceneManager α) (s : ShaderManager α) (r g b a : α)
    (hs : sm.m_pShaderManager = some s) :
    (SetShaderColor sm r g b a).m_pShaderManager
      = some ((s.setIntValue g_UseTextureName 0).setVec4Value g_ColorValueName ⟨r, g, b, a⟩) := by
  unfold SetShaderColor
  simp only [hs]

theorem SetShaderTexture_shader (sm : SceneManager α) (s : ShaderManager α) (tag : String)
    (hs : sm.m_pShaderManager = some s) :
    (SetShaderTexture sm tag).m_pShaderManager
      = some ((s.setIntValue g_UseTextureName 1).setSampler2DValue g_TextureValueName
          (FindTextureSlot sm tag)) := by
  unfold SetShaderTexture
  simp only [hs]

theorem SetShaderColor_flag (sm : SceneManager α) (r g b a : α)
    (hs : sm.m_pShaderManager ≠ none) :
    (SetShaderColor sm r g b a).uniform "bUseTexture" = some (.intVal 0) := by
  obtain ⟨s, hs'⟩ := Option.ne_none_iff_exists'.mp hs
  unfold SceneManager.uniform
  rw [SetShaderColor_shader sm s r g b a hs']
  simp [ShaderManager.setIntValue, ShaderManager.setVec4Value, ShaderManager.write,
    g_UseTextureName, g_ColorValueName]

theorem SetShaderTexture_flag (sm : SceneManager α) (tag : String)
    (hs : sm.m_pShaderManager ≠ none) :
    (SetShaderTexture sm tag).uniform "bUseTexture" = some (.intVal 1) := by
  obtain ⟨s, hs'⟩ := Option.ne_none_iff_exists'.mp hs
  unfold SceneManager.uniform
  rw [SetShaderTexture_shader sm s tag hs']
  simp [ShaderManager.setIntValue, ShaderManager.setSampler2DValue, ShaderManager.write,
    g_UseTextureName, g_TextureValueName]

theorem SetShaderTexture_sampler (sm : SceneManager α) (tag : String)
    (hs : sm.m_pShaderManager ≠ none) :
    (SetShaderTexture sm tag).uniform "objectTexture"
      = some (.sampler2DVal (FindTextureSlot sm tag)) := by
  obtain ⟨s, hs'⟩ := Option.ne_none_iff_exists'.mp hs
  unfold SceneManager.uniform
  rw [SetShaderTexture_shader sm s tag hs']
  simp [ShaderManager.setIntValue, ShaderManager.setSampler2DValue, ShaderManager.write,
    g_UseTextureName, g_TextureValueName]

theorem ShadingCall.run_shader_ne_none (sm : SceneManager α) (c : ShadingCall α)
    (hs : sm.m_pShaderManager ≠ none) : (ShadingCall.run sm c).m_pShaderManager ≠ none := by
  obtain ⟨s, hs'⟩ := Option.ne_none_iff_exists'.mp hs
  cases c with
  | color r g b a =>
    simp only [ShadingCall.run]
    rw [SetShaderColor_shader sm s r g b a hs']
    simp
  | texture tag =>
    simp only [ShadingCall.run]
    rw [SetShaderTexture_shader sm s tag hs']
    simp

theorem runShadingCalls_shader_ne_none (calls : List (ShadingCall α)) (sm : SceneManager α)
    (hs : sm.m_pShaderManager ≠ none) : (runShadingCalls sm calls).m_pShaderManager ≠ none := by
  induction calls generalizing sm with
  | nil => simpa [runShadingCalls] using hs
  | cons c rest ih =>
    simp only [runShadingCalls, List.foldl_cons]
    exact ih _ (ShadingCall.run_shader_ne_none sm c hs)

/-- C6: with a shader attached, `bUseTexture` is 0 (false) after
`SetShaderTexture` followed by `SetShaderColor`, 1 (true) after
`SetShaderColor` followed by `SetShaderTexture`, and after any sequence of
the two setters it is the value passed by the last call of the sequence. -/
theorem shading_mode_last_writer_wins (sm : SceneManager α) (r g b a : α) (tag : String)
    (calls : List (ShadingCall α)) (last : ShadingCall α)
    (hs : sm.m_pShaderManager ≠ none) :
    (SetShaderColor (SetShaderTexture sm tag) r g b a).uniform "bUseTexture"
      = some (.intVal 0) ∧
    (SetShaderTexture (SetShaderColor sm r g b a) tag).uniform "bUseTexture"
      = some (.intVal 1) ∧
    (runShadingCalls sm (calls ++ [last])).uniform "bUseTexture" = some (.intVal last.flag) := by
  refine ⟨?_, ?_, ?_⟩
  · exact SetShaderColor_flag _ r g b a
      (ShadingCall.run_shader_ne_none sm (.texture tag) hs)
  · exact SetShaderTexture_flag _ tag
      (ShadingCall.run_shader_ne_none sm (.color r g b a) hs)
  · have hmid := runShadingCalls_shader_ne_none calls sm hs
    have hsplit : runShadingCalls sm (calls ++ [last])
        = ShadingCall.run (runShadingCalls sm calls) last := by
      simp [runShadingCalls, List.foldl_append]
    rw [hsplit]
    cases last with
    | color r' g' b' a' => exact SetShaderColor_flag _ r' g' b' a' hmid
    | texture tag' => exact SetShaderTexture_flag _ tag' hmid

/-- Witness for C6 on `demoShaded`: texture, colour, texture, colour ends
with the flag cleared; the same calls with a texture call last end with the
flag set. -/
theorem shading_mode_last_writer_wins_witness :
    demoShaded.m_pShaderManager ≠ none ∧
    (runShadingCalls demoShaded
      ([.texture "ruler", .color 1 0 0 1, .texture "sharpie"] ++ [.color 0 1 0 1])).uniform
        "bUseTexture" = some (.intVal 0) ∧
    (runShadingCalls demoShaded
      ([.texture "ruler", .color 1 0 0 1, .color 0 1 0 1] ++ [.texture "sharpie"])).uniform
        "bUseTexture" = some (.intVal 1) :=
  ⟨by simp [demoShaded],
   (shading_mode_last_writer_wins demoShaded 0 0 0 0 ""
      [.texture "ruler", .color 1 0 0 1, .texture "sharpie"] (.color 0 1 0 1)
      (by simp [demoShaded])).2.2,
   (shading_mode_last_writer_wins demoShaded 0 0 0 0 ""
      [.texture "ruler", .color 1 0 0 1, .color 0 1 0 1] (.texture "sharpie")
      (by simp [demoShaded])).2.2⟩

/-- C8: with a shader attached, `SetShaderTexture tag` sets `bUseTexture` to
1 (true) and writes the result of `FindTextureSlot tag` to the sampler
`objectTexture` as it is; for a tag that no registered entry carries, that
value is `-1`, and texture sampling is enabled all the same. -/
theorem SetShaderTexture_forwards_slot (sm : SceneManager α) (tag : String)
    (hs : sm.m_pShaderManager ≠ none) :
    (SetShaderTexture sm tag).uniform "bUseTexture" = some (.intVal 1) ∧
    (SetShaderTexture sm tag).uniform "objectTexture"
      = some (.sampler2DVal (FindTextureSlot sm tag)) ∧
    (sm.m_loadedTextures ≤ sm.m_textureIDs.length → (∀ e ∈ sm.registry, e.tag ≠ tag) →
      (SetShaderTexture sm tag).uniform "objectTexture" = some (.sampler2DVal (-1))) := by
  refine ⟨SetShaderTexture_flag sm tag hs, SetShaderTexture_sampler sm tag hs, ?_⟩
  intro hwf hno
  rw [SetShaderTexture_sampler sm tag hs, FindTextureSlot_of_absent sm tag
    (fun j hj => sm.absent_getD tag hwf hno j (Nat.zero_le j) hj)]

/-- Witness for C8 on `demoShaded`: the unregistered tag "nonexistent" puts
`-1` into the sampler and 1 into `bUseTexture`. -/
theorem SetShaderTexture_forwards_slot_witness :
    demoShaded.m_pShaderManager ≠ none ∧
    (SetShaderTexture demoShaded "nonexistent").uniform "bUseTexture" = some (.intVal 1) ∧
    (SetShaderTexture demoShaded "nonexistent").uniform "objectTexture"
      = some (.sampler2DVal (-1)) :=
  ⟨by simp [demoShaded],
   (SetShaderTexture_forwards_slot demoShaded "nonexistent" (by simp [demoShaded])).1,
   (SetShaderTexture_forwards_slot demoShaded "nonexistent" (by simp [demoShaded])).2.2
     (by decide) (by decide)⟩

/-! ## Lemmas on the model matrix -/

theorem mat4.toMatrix_apply [Field α] (A : mat4 α) :
    A.toMatrix 0 0 = A.c0.x ∧ A.toMatrix 0 1 = A.c1.x ∧ A.toMatrix 0 2 = A.c2.x ∧
    A.toMatrix 0 3 = A.c3.x ∧
    A.toMatrix 1 0 = A.c0.y ∧ A.toMatrix 1 1 = A.c1.y ∧ A.toMatrix 1 2 = A.c2.y ∧
    A.toMatrix 1 3 = A.c3.y ∧
    A.toMatrix 2 0 = A.c0.z ∧ A.toMatrix 2 1 = A.c1.z ∧ A.toMatrix 2 2 = A.c2.z ∧
    A.toMatrix 2 3 = A.c3.z ∧
    A.toMatrix 3 0 = A.c0.w ∧ A.toMatrix 3 1 = A.c1.w ∧ A.toMatrix 3 2 = A.c2.w ∧
    A.toMatrix 3 3 = A.c3.w := by
  refine ⟨rfl, rfl, rfl, rfl, rfl, rfl, rfl, rfl, rfl, rfl, rfl, rfl, rfl, rfl, rfl, rfl⟩

set_option maxHeartbeats 400000 in
theorem mat4.toMatrix_mul [Field α] (A B : mat4 α) :
    (A.mul B).toMatrix = A.toMatrix * B.toMatrix := by
  obtain ⟨a00, a01, a02, a03, a10, a11, a12, a13, a20, a21, a22, a23, a30, a31, a32, a33⟩ :=
    mat4.toMatrix_apply A
  obtain ⟨b00, b01, b02, b03, b10, b11, b12, b13, b20, b21, b22, b23, b30, b31, b32, b33⟩ :=
    mat4.toMatrix_apply B
  obtain ⟨c00, c01, c02, c03, c10, c11, c12, c13, c20, c21, c22, c23, c30, c31, c32, c33⟩ :=
    mat4.toMatrix_apply (A.mul B)
  ext i j
  fin_cases i <;> fin_cases j <;>
    simp only [Matrix.mul_apply, Fin.sum_univ_four, Fin.zero_eta, Fin.mk_one, Fin.reduceFinMk,
      a00, a01, a02, a03, a10, a11, a12, a13, a20, a21, a22, a23, a30, a31, a32, a33,
      b00, b01, b02, b03, b10, b11, b12, b13, b20, b21, b22, b23, b30, b31, b32, b33,
      c00, c01, c02, c03, c10, c11, c12, c13, c20, c21, c22, c23, c30, c31, c32, c33] <;>
    simp only [mat4.mul, vec4.add, vec4.scale]

theorem mat4.toVec_mulVec [Field α] (A : mat4 α) (v : vec4 α) :
    (A.mulVec v).toVec = A.toMatrix.mulVec v.toVec := by
  ext i
  fin_cases i <;>
    simp [mat4.mulVec, mat4.toMatrix, vec4.toVec, vec4.add, vec4.scale, Matrix.mulVec,
      Matrix.dotProduct, Fin.sum_univ_four] <;>
    ring

theorem glm.toMatrix_translate [Field α] (p : vec3 α) :
    (glm.translate p).toMatrix = Translate p := by
  ext i j
  fin_cases i <;> fin_cases j <;>
    simp [glm.translate, mat4.identity, mat4.toMatrix, vec4.add, vec4.scale, Translate]

theorem glm.toMatrix_scale [Field α] (k : vec3 α) :
    (glm.scale k).toMatrix = Scale k := by
  ext i j
  fin_cases i <;> fin_cases j <;>
    simp [glm.scale, mat4.identity, mat4.toMatrix, vec4.scale, Scale]

theorem glm.normalize_unit [Field α] (T : Trig α) (hsqrt : T.sqrt 1 = 1) (v : vec3 α)
    (hv : v.x * v.x + v.y * v.y + v.z * v.z = 1) : glm.normalize T v = v := by
  simp [glm.normalize, hv, hsqrt]

theorem glm.toMatrix_rotateX [Field α] (T : Trig α) (hsqrt : T.sqrt 1 = 1) (θ : α) :
    (glm.rotate T θ ⟨1, 0, 0⟩).toMatrix = RotateX T θ := by
  have hn : glm.normalize T (⟨1, 0, 0⟩ : vec3 α) = ⟨1, 0, 0⟩ :=
    glm.normalize_unit T hsqrt _ (by simp)
  ext i j
  fin_cases i <;> fin_cases j <;>
    simp [glm.rotate, hn, mat4.identity, mat4.toMatrix, vec4.add, vec4.scale, RotateX]

theorem glm.toMatrix_rotateY [Field α] (T : Trig α) (hsqrt : T.sqrt 1 = 1) (θ : α) :
    (glm.rotate T θ ⟨0, 1, 0⟩).toMatrix = RotateY T θ := by
  have hn : glm.normalize T (⟨0, 1, 0⟩ : vec3 α) = ⟨0, 1, 0⟩ :=
    glm.normalize_unit T hsqrt _ (by simp)
  ext i j
  fin_cases i <;> fin_cases j <;>
    simp [glm.rotate, hn, mat4.identity, mat4.toMatrix, vec4.add, vec4.scale, RotateY]

theorem glm.toMatrix_rotateZ [Field α] (T : Trig α) (hsqrt : T.sqrt 1 = 1) (θ : α) :
    (glm.rotate T θ ⟨0, 0, 1⟩).toMatrix = RotateZ T θ := by
  have hn : glm.normalize T (⟨0, 0, 1⟩ : vec3 α) = ⟨0, 0, 1⟩ :=
    glm.normalize_unit T hsqrt _ (by simp)
  ext i j
  fin_cases i <;> fin_cases j <;>
    simp [glm.rotate, hn, mat4.identity, mat4.toMatrix, vec4.add, vec4.scale, RotateZ]

theorem SetTransformations_uniform [Field α] (T : Trig α) (sm : SceneManager α)
    (s : ShaderManager α) (scaleXYZ : vec3 α) (rx ry rz : α) (positionXYZ : vec3 α) :
    (SetTransformations T { sm with m_pShaderManager := some s } scaleXYZ rx ry rz
      positionXYZ).uniform "model"
      = some (.mat4Val (modelMatrix T scaleXYZ rx ry rz positionXYZ)) := by
  simp [SetTransformations, SceneManager.uniform, ShaderManager.setMat4Value,
    ShaderManager.write, g_ModelName, modelMatrix]

theorem modelMatrix_toMatrix [Field α] (T : Trig α) (hsqrt : T.sqrt 1 = 1)
    (scaleXYZ : vec3 α) (rx ry rz : α) (positionXYZ : vec3 α) :
    (modelMatrix T scaleXYZ rx ry rz positionXYZ).toMatrix
      = Translate positionXYZ * RotateX T (rx * (T.pi / 180)) * RotateY T (ry * (T.pi / 180))
          * RotateZ T (rz * (T.pi / 180)) * Scale scaleXYZ := by
  unfold modelMatrix
  rw [mat4.toMatrix_mul, mat4.toMatrix_mul, mat4.toMatrix_mul, mat4.toMatrix_mul,
    glm.toMatrix_translate, glm.toMatrix_scale, glm.toMatrix_rotateX T hsqrt,
    glm.toMatrix_rotateY T hsqrt, glm.toMatrix_rotateZ T hsqrt]
  rfl

theorem modelMatrix_example :
    (modelMatrix (Trig.mk Real.cos Real.sin Real.sqrt Real.pi) ⟨2, 1, 1⟩ 0 90 0
      ⟨1, 0, 0⟩).mulVec ⟨1, 0, 0, 1⟩ = ⟨1, 0, -2, 1⟩ := by
  have h90 : (90 : ℝ) * (Real.pi / 180) = Real.pi / 2 := by ring
  have hn1 : glm.normalize (Trig.mk Real.cos Real.sin Real.sqrt Real.pi)
      (⟨1, 0, 0⟩ : vec3 ℝ) = ⟨1, 0, 0⟩ := glm.normalize_unit _ Real.sqrt_one _ (by simp)
  have hn2 : glm.normalize (Trig.mk Real.cos Real.sin Real.sqrt Real.pi)
      (⟨0, 1, 0⟩ : vec3 ℝ) = ⟨0, 1, 0⟩ := glm.normalize_unit _ Real.sqrt_one _ (by simp)
  have hn3 : glm.normalize (Trig.mk Real.cos Real.sin Real.sqrt Real.pi)
      (⟨0, 0, 1⟩ : vec3 ℝ) = ⟨0, 0, 1⟩ := glm.normalize_unit _ Real.sqrt_one _ (by simp)
  simp [modelMatrix, glm.rotate, glm.radians, glm.translate, glm.scale, hn1, hn2, hn3, h90,
    mat4.mul, mat4.mulVec, mat4.identity, vec4.add, vec4.scale]

theorem spec_product_example :
    (Translate (⟨1, 0, 0⟩ : vec3 ℝ)
      * RotateY (Trig.mk Real.cos Real.sin Real.sqrt Real.pi) (90 * (Real.pi / 180))
      * RotateX (Trig.mk Real.cos Real.sin Real.sqrt Real.pi) 0
      * RotateZ (Trig.mk Real.cos Real.sin Real.sqrt Real.pi) 0
      * Scale ⟨2, 1, 1⟩).mulVec ![1, 0, 0, 1] = ![1, 0, -2, 1] := by
  have h90 : (90 : ℝ) * (Real.pi / 180) = Real.pi / 2 := by ring
  rw [h90]
  simp only [← Matrix.mulVec_mulVec]
  simp [Translate, RotateX, RotateY, RotateZ, Scale, Matrix.mulVec, Matrix.dotProduct,
    Fin.sum_univ_four, Matrix.vecHead, Matrix.vecTail]
  ext i
  fin_cases i <;> simp [Matrix.mulVec, Matrix.dotProduct, Fin.sum_univ_four]

/-! ## Claim on the model matrix -/

/-- C7: over the real numbers, with a shader attached, `SetTransformations`
writes to the uniform `model` a matrix that stands for the product
`Translate(position) · RotateX(rx) · RotateY(ry) · RotateZ(rz) · Scale(scale)`,
the angles being the arguments in degrees times π/180. For scale (2,1,1),
rotation (0,90,0) and position (1,0,0) the written matrix sends the point
(1,0,0) to (1,0,-2), as does the product
`Translate(1,0,0) · RotateY(90°) · RotateX(0) · RotateZ(0) · Scale(2,1,1)`. -/
theorem SetTransformations_composes (sm : SceneManager ℝ) (s : ShaderManager ℝ)
    (scaleXYZ positionXYZ : vec3 ℝ) (rx ry rz : ℝ) :
    (∃ M : mat4 ℝ,
      (SetTransformations (Trig.mk Real.cos Real.sin Real.sqrt Real.pi)
        { sm with m_pShaderManager := some s } scaleXYZ rx ry rz positionXYZ).uniform "model"
        = some (.mat4Val M) ∧
      M.toMatrix = Translate positionXYZ
        * RotateX (Trig.mk Real.cos Real.sin Real.sqrt Real.pi) (rx * (Real.pi / 180))
        * RotateY (Trig.mk Real.cos Real.sin Real.sqrt Real.pi) (ry * (Real.pi / 180))
        * RotateZ (Trig.mk Real.cos Real.sin Real.sqrt Real.pi) (rz * (Real.pi / 180))
        * Scale scaleXYZ) ∧
    (∃ M : mat4 ℝ,
      (SetTransformations (Trig.mk Real.cos Real.sin Real.sqrt Real.pi)
        { sm with m_pShaderManager := some s } ⟨2, 1, 1⟩ 0 90 0 ⟨1, 0, 0⟩).uniform "model"
        = some (.mat4Val M) ∧
      M.mulVec ⟨1, 0, 0, 1⟩ = ⟨1, 0, -2, 1⟩ ∧
      M.toMatrix.mulVec ![1, 0, 0, 1] = ![1, 0, -2, 1] ∧
      (Translate (⟨1, 0, 0⟩ : vec3 ℝ)
        * RotateY (Trig.mk Real.cos Real.sin Real.sqrt Real.pi) (90 * (Real.pi / 180))
        * RotateX (Trig.mk Real.cos Real.sin Real.sqrt Real.pi) 0
        * RotateZ (Trig.mk Real.cos Real.sin Real.sqrt Real.pi) 0
        * Scale ⟨2, 1, 1⟩).mulVec ![1, 0, 0, 1] = ![1, 0, -2, 1]) := by
  refine ⟨⟨_, SetTransformations_uniform _ sm s scaleXYZ rx ry rz positionXYZ,
    modelMatrix_toMatrix _ Real.sqrt_one scaleXYZ rx ry rz positionXYZ⟩,
    ⟨_, SetTransformations_uniform _ sm s ⟨2, 1, 1⟩ 0 90 0 ⟨1, 0, 0⟩, modelMatrix_example, ?_,
      spec_product_example⟩⟩
  have h := mat4.toVec_mulVec (modelMatrix (Trig.mk Real.cos Real.sin Real.sqrt Real.pi)
    ⟨2, 1, 1⟩ 0 90 0 ⟨1, 0, 0⟩) ⟨1, 0, 0, 1⟩
  rw [modelMatrix_example] at h
  exact h.symm

/-! ## Claims on the camera speed -/

theorem scrollCallback_speed (g : ViewGlobals) (x d : ℚ) :
    (scrollCallback g x d).cameraSpeed = min 6 (max (1 / 100) (g.cameraSpeed + d * (1 / 100))) := by
  simp only [scrollCallback]
  norm_num
  split_ifs <;> simp only [min_def, max_def] <;> split_ifs <;> linarith

theorem scrollRepeat_down (g : ViewGlobals) (d : ℚ) (hlo : 1 / 100 ≤ g.cameraSpeed)
    (hhi : g.cameraSpeed ≤ 6) (hd : d < 0) (k : Nat) :
    (scrollRepeat d k g).cameraSpeed = max (1 / 100) (g.cameraSpeed + k * (d * (1 / 100))) := by
  induction k with
  | zero =>
    simp only [scrollRepeat, Nat.cast_zero, zero_mul, add_zero]
    exact (max_eq_right hlo).symm
  | succ k ih =>
    simp only [scrollRepeat]
    rw [scrollCallback_speed, ih]
    have hk : (0 : ℚ) ≤ k := Nat.cast_nonneg k
    have hc : d * (1 / 100) < 0 := by linarith
    have hkd : (k : ℚ) * (d * (1 / 100)) ≤ 0 := mul_nonpos_of_nonneg_of_nonpos hk hc.le
    have e : ((k + 1 : ℕ) : ℚ) * (d * (1 / 100)) = k * (d * (1 / 100)) + d * (1 / 100) := by
      push_cast; ring
    rw [e]
    simp only [min_def, max_def]
    split_ifs <;> linarith

theorem scrollRepeat_up (g : ViewGlobals) (d : ℚ) (hlo : 1 / 100 ≤ g.cameraSpeed)
    (hhi : g.cameraSpeed ≤ 6) (hd : 0 < d) (k : Nat) :
    (scrollRepeat d k g).cameraSpeed = min 6 (g.cameraSpeed + k * (d * (1 / 100))) := by
  induction k with
  | zero =>
    simp only [scrollRepeat, Nat.cast_zero, zero_mul, add_zero]
    exact (min_eq_right hhi).symm
  | succ k ih =>
    simp only [scrollRepeat]
    rw [scrollCallback_speed, ih]
    have hk : (0 : ℚ) ≤ k := Nat.cast_nonneg k
    have hc : 0 < d * (1 / 100) := by linarith
    have hkd : 0 ≤ (k : ℚ) * (d * (1 / 100)) := mul_nonneg hk hc.le
    have e : ((k + 1 : ℕ) : ℚ) * (d * (1 / 100)) = k * (d * (1 / 100)) + d * (1 / 100) := by
      push_cast; ring
    rw [e]
    simp only [min_def, max_def]
    split_ifs <;> linarith

theorem scroll_down_saturates (g : ViewGlobals) (d : ℚ) (hlo : 1 / 100 ≤ g.cameraSpeed)
    (hhi : g.cameraSpeed ≤ 6) (hd : d < 0) :
    ∃ N : Nat, ∀ k, N ≤ k → (scrollRepeat d k g).cameraSpeed = 1 / 100 := by
  obtain ⟨N, hN⟩ := exists_nat_ge ((g.cameraSpeed - 1 / 100) / (-d * (1 / 100)))
  refine ⟨N, fun k hk => ?_⟩
  rw [scrollRepeat_down g d hlo hhi hd k]
  have hpos : 0 < -d * (1 / 100) := by linarith
  have hNk : (N : ℚ) ≤ k := by exact_mod_cast hk
  have h1 : g.cameraSpeed - 1 / 100 ≤ N * (-d * (1 / 100)) := by
    rwa [div_le_iff₀ hpos] at hN
  have h2 : (N : ℚ) * (-d * (1 / 100)) ≤ k * (-d * (1 / 100)) :=
    mul_le_mul_of_nonneg_right hNk hpos.le
  apply max_eq_left
  linarith

theorem scroll_up_saturates (g : ViewGlobals) (d : ℚ) (hlo : 1 / 100 ≤ g.cameraSpeed)
    (hhi : g.cameraSpeed ≤ 6) (hd : 0 < d) :
    ∃ N : Nat, ∀ k, N ≤ k → (scrollRepeat d k g).cameraSpeed = 6 := by
  obtain ⟨N, hN⟩ := exists_nat_ge ((6 - g.cameraSpeed) / (d * (1 / 100)))
  refine ⟨N, fun k hk => ?_⟩
  rw [scrollRepeat_up g d hlo hhi hd k]
  have hpos : 0 < d * (1 / 100) := by linarith
  have hNk : (N : ℚ) ≤ k := by exact_mod_cast hk
  have h1 : 6 - g.cameraSpeed ≤ N * (d * (1 / 100)) := by
    rwa [div_le_iff₀ hpos] at hN
  have h2 : (N : ℚ) * (d * (1 / 100)) ≤ k * (d * (1 / 100)) :=
    mul_le_mul_of_nonneg_right hNk hpos.le
  apply min_eq_left
  linarith

/-- C9: for every current speed and scroll offset, over the rationals,
`scrollCallback` sets `cameraSpeed` to
`min 6.0 (max 0.01 (cameraSpeed + yOffset * 0.01))`, so the new speed lies in
the closed interval from 0.01 to 6.0 whatever the old speed was. -/
theorem scrollCallback_clamps (g : ViewGlobals) (xOffset yOffset : ℚ) :
    (scrollCallback g xOffset yOffset).cameraSpeed
      = min 6.0 (max 0.01 (g.cameraSpeed + yOffset * 0.01)) ∧
    0.01 ≤ (scrollCallback g xOffset yOffset).cameraSpeed ∧
    (scrollCallback g xOffset yOffset).cameraSpeed ≤ 6.0 := by
  have h := scrollCallback_speed g xOffset yOffset
  have e1 : (0.01 : ℚ) = 1 / 100 := by norm_num
  have e2 : (6.0 : ℚ) = 6 := by norm_num
  rw [e1, e2, h]
  refine ⟨rfl, ?_, min_le_left _ _⟩
  exact le_min (by norm_num) (le_max_left _ _)

/-- C10: from any speed between 0.01 and 6.0 (such as the initial 4.1),
scroll events with one fixed negative offset bring `cameraSpeed` to exactly
0.01 after finitely many events and keep it there at every later event; with
one fixed positive offset the speed reaches exactly 6.0 and stays there. -/
theorem scroll_saturates (g : ViewGlobals) (d : ℚ) (hlo : 0.01 ≤ g.cameraSpeed)
    (hhi : g.cameraSpeed ≤ 6.0) :
    (d < 0 → ∃ N : Nat, ∀ k, N ≤ k → (scrollRepeat d k g).cameraSpeed = 0.01) ∧
    (0 < d → ∃ N : Nat, ∀ k, N ≤ k → (scrollRepeat d k g).cameraSpeed = 6.0) := by
  have e1 : (0.01 : ℚ) = 1 / 100 := by norm_num
  have e2 : (6.0 : ℚ) = 6 := by norm_num
  rw [e1] at hlo
  rw [e2] at hhi
  rw [e1, e2]
  exact ⟨scroll_down_saturates g d hlo hhi, scroll_up_saturates g d hlo hhi⟩

/-- Witness for C10: the initial globals hold the speed 4.1, which lies in
the interval; the offset -1 drives it to 0.01 and the offset 1 to 6.0. -/
theorem scroll_saturates_witness :
    ViewGlobals.initial.cameraSpeed = 4.1 ∧
    (∃ N : Nat, ∀ k, N ≤ k → (scrollRepeat (-1) k ViewGlobals.initial).cameraSpeed = 0.01) ∧
    (∃ N : Nat, ∀ k, N ≤ k → (scrollRepeat 1 k ViewGlobals.initial).cameraSpeed = 6.0) :=
  ⟨rfl,
   (scroll_saturates ViewGlobals.initial (-1) (by norm_num [ViewGlobals.initial])
      (by norm_num [ViewGlobals.initial])).1 (by norm_num),
   (scroll_saturates ViewGlobals.initial 1 (by norm_num [ViewGlobals.initial])
      (by norm_num [ViewGlobals.initial])).2 (by norm_num)⟩

/-! ## Claims on the mouse and the keyboard -/

theorem roundHalfEven_near (r : ℚ) (n : Int) (h1 : (n : ℚ) - 1 / 2 < r)
    (h2 : r < (n : ℚ) + 1 / 2) : roundHalfEven r = n := by
  unfold roundHalfEven
  by_cases hn : (n : ℚ) ≤ r
  · have hf : ⌊r⌋ = n := by
      rw [Int.floor_eq_iff]
      exact ⟨hn, by linarith⟩
    simp only [hf]
    rw [if_pos (by linarith)]
  · have hf : ⌊r⌋ = n - 1 := by
      rw [Int.floor_eq_iff]
      push_cast
      exact ⟨by linarith, by linarith⟩
    simp only [hf]
    push_cast
    rw [if_neg (by linarith), if_pos (by linarith)]
    ring

theorem log_two_eq (q : ℚ) (e : Int) (hlo : (2 : ℚ) ^ e ≤ q) (hhi : q < (2 : ℚ) ^ (e + 1)) :
    Int.log 2 q = e := by
  have hpos : 0 < q := lt_of_lt_of_le (zpow_pos (by norm_num) e) hlo
  have h1 : e ≤ Int.log 2 q := by
    rw [← Int.zpow_le_iff_le_log (by norm_num) hpos]
    simpa using hlo
  have h2 : Int.log 2 q < e + 1 := by
    rw [← Int.lt_zpow_iff_log_lt (by norm_num) hpos]
    simpa using hhi
  omega

/-- The value of `roundBinary` at a rational whose binary exponent `e` and
nearest grid point `n` are known. -/
theorem roundBinary_eval (p : Nat) (emin : Int) (q : ℚ) (e n : Int)
    (hlo : (2 : ℚ) ^ e ≤ |q|) (hhi : |q| < (2 : ℚ) ^ (e + 1)) (hemin : emin ≤ e)
    (h1 : (n : ℚ) - 1 / 2 < q / 2 ^ (e - ((p : Int) - 1)))
    (h2 : q / 2 ^ (e - ((p : Int) - 1)) < (n : ℚ) + 1 / 2) :
    roundBinary p emin q = n * 2 ^ (e - ((p : Int) - 1)) := by
  have hq : q ≠ 0 := by
    intro h
    rw [h, abs_zero] at hlo
    exact absurd hlo (not_le.mpr (zpow_pos (by norm_num) e))
  unfold roundBinary
  rw [if_neg hq, log_two_eq |q| e hlo hhi, max_eq_left hemin]
  simp only
  rw [roundHalfEven_near _ n h1 h2]

theorem roundBinary_zero (p : Nat) (emin : Int) : roundBinary p emin 0 = 0 := by
  simp [roundBinary]

/-- The `double` nearest to 0.1. -/
theorem toDouble_tenth : toDouble 0.1 = 3602879701896397 / 36028797018963968 := by
  unfold toDouble
  rw [roundBinary_eval 53 (-1022) 0.1 (-4) 7205759403792794 (by norm_num [abs_of_pos])
    (by norm_num [abs_of_pos]) (by norm_num) (by norm_num) (by norm_num)]
  norm_num

/-- The `double` nearest to 0.2. -/
theorem toDouble_fifth : toDouble 0.2 = 3602879701896397 / 18014398509481984 := by
  unfold toDouble
  rw [roundBinary_eval 53 (-1022) 0.2 (-3) 7205759403792794 (by norm_num [abs_of_pos])
    (by norm_num [abs_of_pos]) (by norm_num) (by norm_num) (by norm_num)]
  norm_num

/-- The `float` to which the `double` 0.1 narrows. -/
theorem toFloat_tenth :
    toFloat (3602879701896397 / 36028797018963968) = 13421773 / 134217728 := by
  unfold toFloat
  rw [roundBinary_eval 24 (-126) _ (-4) 13421773 (by norm_num [abs_of_pos])
    (by norm_num [abs_of_pos]) (by norm_num) (by norm_num) (by norm_num)]
  norm_num

/-- The `float` to which the `double` 0.2 narrows. -/
theorem toFloat_fifth :
    toFloat (3602879701896397 / 18014398509481984) = 13421773 / 67108864 := by
  unfold toFloat
  rw [roundBinary_eval 24 (-126) _ (-3) 13421773 (by norm_num [abs_of_pos])
    (by norm_num [abs_of_pos]) (by norm_num) (by norm_num) (by norm_num)]
  norm_num

/-- The first `xOffset` for the sample 0.1: the `double` difference is exact
and narrows to a non-zero `float`. -/
theorem offset_tenth :
    toFloat (toDouble (3602879701896397 / 36028797018963968 - 13421773 / 134217728))
      = -13421773 / 9007199254740992 := by
  have hsub : (3602879701896397 / 36028797018963968 - 13421773 / 134217728 : ℚ)
      = -53687091 / 36028797018963968 := by norm_num
  have hd : toDouble (-53687091 / 36028797018963968) = -53687091 / 36028797018963968 := by
    unfold toDouble
    rw [roundBinary_eval 53 (-1022) _ (-30) (-7205759376949248)
      (by norm_num [abs_of_neg]) (by norm_num [abs_of_neg]) (by norm_num) (by norm_num)
      (by norm_num)]
    norm_num
  rw [hsub, hd]
  unfold toFloat
  rw [roundBinary_eval 24 (-126) _ (-30) (-13421773)
    (by norm_num [abs_of_neg]) (by norm_num [abs_of_neg]) (by norm_num) (by norm_num)
    (by norm_num)]
  norm_num

/-- The first `yOffset` for the sample 0.2. -/
theorem offset_fifth :
    toFloat (toDouble (13421773 / 67108864 - 3602879701896397 / 18014398509481984))
      = 13421773 / 4503599627370496 := by
  have hsub : (13421773 / 67108864 - 3602879701896397 / 18014398509481984 : ℚ)
      = 53687091 / 18014398509481984 := by norm_num
  have hd : toDouble (53687091 / 18014398509481984) = 53687091 / 18014398509481984 := by
    unfold toDouble
    rw [roundBinary_eval 53 (-1022) _ (-29) 7205759376949248
      (by norm_num [abs_of_pos]) (by norm_num [abs_of_pos]) (by norm_num) (by norm_num)
      (by norm_num)]
    norm_num
  rw [hsub, hd]
  unfold toFloat
  rw [roundBinary_eval 24 (-126) _ (-29) 13421773
    (by norm_num [abs_of_pos]) (by norm_num [abs_of_pos]) (by norm_num) (by norm_num)
    (by norm_num)]
  norm_num

theorem toFloat_ten : toFloat 10 = 10 := by
  unfold toFloat
  rw [roundBinary_eval 24 (-126) 10 3 10485760 (by norm_num [abs_of_pos])
    (by norm_num [abs_of_pos]) (by norm_num) (by norm_num) (by norm_num)]
  norm_num

theorem toFloat_twenty : toFloat 20 = 20 := by
  unfold toFloat
  rw [roundBinary_eval 24 (-126) 20 4 10485760 (by norm_num [abs_of_pos])
    (by norm_num [abs_of_pos]) (by norm_num) (by norm_num) (by norm_num)]
  norm_num

theorem offset_zero : toFloat (toDouble 0) = 0 := by
  unfold toFloat toDouble
  rw [roundBinary_zero, roundBinary_zero]

theorem Mouse_Position_Callback_first {ρ : Type}
    (ProcessMouseMovement : Camera ρ → ℚ → ℚ → Camera ρ) (g : ViewGlobals) (w : Bool)
    (camera : Camera ρ) (x y : ℚ) :
    Mouse_Position_Callback ProcessMouseMovement
        { globals := { g with gFirstMouse := true }, g_pCamera := some camera,
          windowShouldClose := w } x y
      = some
        { globals := { g with gLastX := toFloat x, gLastY := toFloat y, gFirstMouse := false }
          g_pCamera := some (ProcessMouseMovement camera
            (toFloat (toDouble (x - toFloat x))) (toFloat (toDouble (toFloat y - y))))
          windowShouldClose := w } := by
  simp [Mouse_Position_Callback]

theorem Mouse_Position_Callback_later {ρ : Type}
    (ProcessMouseMovement : Camera ρ → ℚ → ℚ → Camera ρ) (g : ViewGlobals) (w : Bool)
    (camera : Camera ρ) (x y : ℚ) :
    Mouse_Position_Callback ProcessMouseMovement
        { globals := { g with gFirstMouse := false }, g_pCamera := some camera,
          windowShouldClose := w } x y
      = some
        { globals := { g with gLastX := toFloat x, gLastY := toFloat y, gFirstMouse := false }
          g_pCamera := some (ProcessMouseMovement camera
            (toFloat (toDouble (x - g.gLastX))) (toFloat (toDouble (g.gLastY - y))))
          windowShouldClose := w } := by
  simp [Mouse_Position_Callback]

/-- C11 (evaluation of the code): with `gFirstMouse` set and a camera
present, the first sample `(x, y)` is stored narrowed to `float`, and the
offsets passed to the camera are the narrowed `double` differences
`x - float(x)` and `float(y) - y`. For the whole-pixel sample (10, 20) they
are (0, 0). For the sample (0.1, 0.2), whose coordinates are not `float`s,
they are `-13421773 / 2^53` and `13421773 / 2^52` (about -1.49e-9 and
2.98e-9), not (0, 0); and a second sample at the very same position, whose
difference to the first is zero, passes these same non-zero offsets again,
because it is measured from the narrowed copy of the first. -/
theorem Mouse_Position_Callback_first_offsets {ρ : Type}
    (ProcessMouseMovement : Camera ρ → ℚ → ℚ → Camera ρ) (g : ViewGlobals) (w : Bool)
    (camera : Camera ρ) (x y : ℚ) :
    Mouse_Position_Callback ProcessMouseMovement
        { globals := { g with gFirstMouse := true }, g_pCamera := some camera,
          windowShouldClose := w } x y
      = some
        { globals := { g with gLastX := toFloat x, gLastY := toFloat y, gFirstMouse := false }
          g_pCamera := some (ProcessMouseMovement camera
            (toFloat (toDouble (x - toFloat x))) (toFloat (toDouble (toFloat y - y))))
          windowShouldClose := w } ∧
    Mouse_Position_Callback ProcessMouseMovement
        { globals := { g with gFirstMouse := true }, g_pCamera := some camera,
          windowShouldClose := w } 10 20
      = some
        { globals := { g with gLastX := 10, gLastY := 20, gFirstMouse := false }
          g_pCamera := some (ProcessMouseMovement camera 0 0)
          windowShouldClose := w } ∧
    Mouse_Position_Callback ProcessMouseMovement
        { globals := { g with gFirstMouse := true }, g_pCamera := some camera,
          windowShouldClose := w } (toDouble 0.1) (toDouble 0.2)
      = some
        { globals :=
            { g with gLastX := 13421773 / 134217728, gLastY := 13421773 / 67108864,
                     gFirstMouse := false }
          g_pCamera := some (ProcessMouseMovement camera
            (-13421773 / 9007199254740992) (13421773 / 4503599627370496))
          windowShouldClose := w } ∧
    Mouse_Position_Callback ProcessMouseMovement
        { globals :=
            { g with gLastX := 13421773 / 134217728, gLastY := 13421773 / 67108864,
                     gFirstMouse := false }
          g_pCamera := some camera, windowShouldClose := w } (toDouble 0.1) (toDouble 0.2)
      = some
        { globals :=
            { g with gLastX := 13421773 / 134217728, gLastY := 13421773 / 67108864,
                     gFirstMouse := false }
          g_pCamera := some (ProcessMouseMovement camera
            (-13421773 / 9007199254740992) (13421773 / 4503599627370496))
          windowShouldClose := w } ∧
    (-13421773 / 9007199254740992 : ℚ) ≠ 0 ∧ (13421773 / 4503599627370496 : ℚ) ≠ 0 := by
  refine ⟨Mouse_Position_Callback_first ProcessMouseMovement g w camera x y, ?_, ?_, ?_,
    by norm_num, by norm_num⟩
  · rw [Mouse_Position_Callback_first, toFloat_ten, toFloat_twenty, sub_self, sub_self,
      offset_zero]
  · rw [Mouse_Position_Callback_first, toDouble_tenth, toDouble_fifth, toFloat_tenth,
      toFloat_fifth, offset_tenth, offset_fifth]
  · have h := Mouse_Position_Callback_later ProcessMouseMovement
      { g with gLastX := 13421773 / 134217728, gLastY := 13421773 / 67108864 } w camera
      (toDouble 0.1) (toDouble 0.2)
    simp only [toDouble_tenth, toDouble_fifth, toFloat_tenth, toFloat_fifth, offset_tenth,
      offset_fifth] at h
    simp only [toDouble_tenth, toDouble_fifth]
    exact h

/-- C12 (evaluation of the code): with the key P alone pressed the camera
gets the four constants of that preset whatever it was before. With the key
O alone pressed only `Position` is assigned: `Front`, `Up` and `Zoom` keep
their previous values, so from the constructed camera the result has zoom 80
and front (0, -0.5, -2), while from the camera left by the P preset it has
zoom 100 and front (0, -1.5, -2). -/
theorem ProcessKeyboardEvents_presets {ρ : Type}
    (ProcessKeyboard : Camera ρ → Camera_Movement → ℚ → Camera ρ) (g : ViewGlobals)
    (w : Bool) (camera : Camera ρ) :
    ProcessKeyboardEvents ProcessKeyboard (onlyKey .GLFW_KEY_P)
        { globals := g, g_pCamera := some camera, windowShouldClose := w }
      = { globals := g
          g_pCamera := some
            { Position := ⟨-4.0, 8.0, 4.0⟩, Front := ⟨0.0, -1.5, -2.0⟩, Up := ⟨0.0, 1.0, 0.0⟩,
              Zoom := 100, rest := camera.rest }
          windowShouldClose := w } ∧
    ProcessKeyboardEvents ProcessKeyboard (onlyKey .GLFW_KEY_O)
        { globals := g, g_pCamera := some camera, windowShouldClose := w }
      = { globals := g
          g_pCamera := some
            { Position := ⟨-1.0, 5.0, 13.0⟩, Front := camera.Front, Up := camera.Up,
              Zoom := camera.Zoom, rest := camera.rest }
          windowShouldClose := w } ∧
    ∃ r1 r2 : Camera ρ,
      ProcessKeyboardEvents ProcessKeyboard (onlyKey .GLFW_KEY_O)
          { globals := g, g_pCamera := some (Camera.constructed camera.rest),
            windowShouldClose := w }
        = { globals := g, g_pCamera := some r1, windowShouldClose := w } ∧
      ProcessKeyboardEvents ProcessKeyboard (onlyKey .GLFW_KEY_O)
          { globals := g
            g_pCamera := some
              { Position := ⟨-4.0, 8.0, 4.0⟩, Front := ⟨0.0, -1.5, -2.0⟩, Up := ⟨0.0, 1.0, 0.0⟩,
                Zoom := 100, rest := camera.rest }
            windowShouldClose := w }
        = { globals := g, g_pCamera := some r2, windowShouldClose := w } ∧
      r1.Position = r2.Position ∧
      r1.Zoom = 80 ∧ r2.Zoom = 100 ∧
      r1.Front = ⟨0.0, -0.5, -2.0⟩ ∧ r2.Front = ⟨0.0, -1.5, -2.0⟩ := by
  have hP : ∀ c : Camera ρ,
      ProcessKeyboardEvents ProcessKeyboard (onlyKey .GLFW_KEY_P)
        { globals := g, g_pCamera := some c, windowShouldClose := w }
      = { globals := g
          g_pCamera := some
            { Position := ⟨-4.0, 8.0, 4.0⟩, Front := ⟨0.0, -1.5, -2.0⟩, Up := ⟨0.0, 1.0, 0.0⟩,
              Zoom := 100, rest := c.rest }
          windowShouldClose := w } := by
    intro c
    simp [ProcessKeyboardEvents, onlyKey]
  have hO : ∀ c : Camera ρ,
      ProcessKeyboardEvents ProcessKeyboard (onlyKey .GLFW_KEY_O)
        { globals := g, g_pCamera := some c, windowShouldClose := w }
      = { globals := g
          g_pCamera := some
            { Position := ⟨-1.0, 5.0, 13.0⟩, Front := c.Front, Up := c.Up,
              Zoom := c.Zoom, rest := c.rest }
          windowShouldClose := w } := by
    intro c
    simp [ProcessKeyboardEvents, onlyKey]
  exact ⟨hP camera, hO camera, _, _, hO _, hO _, rfl, rfl, rfl, rfl, rfl⟩

/-! ## Claim on the material of a known tag -/

/-- When some catalog entry carries the tag there is a first such index. -/
theorem catalog_exists_first (sm : SceneManager α) (tag : String)
    (hex : ∃ m ∈ sm.m_objectMaterials, m.tag = tag) :
    ∃ (i : Nat) (hi : i < sm.m_objectMaterials.length),
      sm.m_objectMaterials[i].tag = tag ∧
      ∀ j (hj : j < sm.m_objectMaterials.length), j < i →
        sm.m_objectMaterials[j].tag ≠ tag := by
  classical
  have hex2 : ∃ i, ∃ hi : i < sm.m_objectMaterials.length,
      sm.m_objectMaterials[i].tag = tag := by
    obtain ⟨m, hmem, hm⟩ := hex
    obtain ⟨i, hi, hget⟩ := List.getElem_of_mem hmem
    exact ⟨i, hi, by rw [hget]; exact hm⟩
  obtain ⟨hi, htag⟩ := Nat.find_spec hex2
  refine ⟨Nat.find hex2, hi, htag, ?_⟩
  intro j hj hlt hcon
  exact Nat.find_min hex2 hlt ⟨hj, hcon⟩

theorem uniform_writeMaterial_other (s : ShaderManager α) (m : OBJECT_MATERIAL α)
    (name : String) (h1 : name ≠ "material.ambientColor")
    (h2 : name ≠ "material.ambientStrength") (h3 : name ≠ "material.diffuseColor")
    (h4 : name ≠ "material.specularColor") (h5 : name ≠ "material.shininess") :
    (s.writeMaterial m).uniforms name = s.uniforms name := by
  simp [ShaderManager.writeMaterial, ShaderManager.setVec3Value, ShaderManager.setFloatValue,
    ShaderManager.write, h1, h2, h3, h4, h5]

/-- C13: with a shader attached and a tag that some catalog entry carries,
`SetShaderMaterial tag` writes the five material uniforms with the values of
the first entry carrying the tag, leaves every other uniform as it was, and
leaves the registry and the catalog untouched. -/
theorem SetShaderMaterial_writes_first_match (sm : SceneManager α) (s : ShaderManager α)
    (tag : String) (material : OBJECT_MATERIAL α) (hs : sm.m_pShaderManager = some s)
    (hex : ∃ m ∈ sm.m_objectMaterials, m.tag = tag) :
    ∃ (i : Nat) (entry : OBJECT_MATERIAL α) (sm1 : SceneManager α),
      sm.m_objectMaterials[i]? = some entry ∧ entry.tag = tag ∧
      (∀ (j : Nat) (e : OBJECT_MATERIAL α), j < i → sm.m_objectMaterials[j]? = some e →
        e.tag ≠ tag) ∧
      SetShaderMaterial sm tag material = some sm1 ∧
      sm1.uniform "material.ambientColor" = some (.vec3Val entry.ambientColor) ∧
      sm1.uniform "material.ambientStrength" = some (.floatVal entry.ambientStrength) ∧
      sm1.uniform "material.diffuseColor" = some (.vec3Val entry.diffuseColor) ∧
      sm1.uniform "material.specularColor" = some (.vec3Val entry.specularColor) ∧
      sm1.uniform "material.shininess" = some (.floatVal entry.shininess) ∧
      (∀ name : String, name ≠ "material.ambientColor" → name ≠ "material.ambientStrength" →
        name ≠ "material.diffuseColor" → name ≠ "material.specularColor" →
        name ≠ "material.shininess" → sm1.uniform name = sm.uniform name) ∧
      sm1.m_textureIDs = sm.m_textureIDs ∧ sm1.m_loadedTextures = sm.m_loadedTextures ∧
      sm1.m_objectMaterials = sm.m_objectMaterials := by
  obtain ⟨i, hi, htag, hne⟩ := catalog_exists_first sm tag hex
  obtain ⟨a1, a2, a3, a4, a5⟩ :=
    uniform_writeMaterial s (material.assignFrom sm.m_objectMaterials[i])
  refine ⟨i, sm.m_objectMaterials[i], _, List.getElem?_eq_getElem hi, htag, ?_,
    SetShaderMaterial_found sm s tag material hs i hi htag hne,
    a1, a2, a3, a4, a5, ?_, rfl, rfl, rfl⟩
  · intro j e hj he
    have hjlen : j < sm.m_objectMaterials.length := lt_trans hj hi
    rw [List.getElem?_eq_getElem hjlen] at he
    rw [← Option.some.inj he]
    exact hne j hjlen hj
  · intro name h1 h2 h3 h4 h5
    show (s.writeMaterial (material.assignFrom sm.m_objectMaterials[i])).uniforms name
      = sm.uniform name
    rw [uniform_writeMaterial_other s _ name h1 h2 h3 h4 h5]
    simp [SceneManager.uniform, hs]

/-- Witness for C13 on `preparedScene`: the tag "wood" is in the catalog
built by `DefineObjectMaterials`, and the shininess written is wood's 20. -/
theorem SetShaderMaterial_writes_first_match_witness :
    preparedScene.m_pShaderManager = some { uniforms := fun _ => none } ∧
    (∃ m ∈ preparedScene.m_objectMaterials, m.tag = "wood") ∧
    ∃ sm1 : SceneManager ℚ,
      SetShaderMaterial preparedScene "wood" zeroMaterial = some sm1 ∧
      sm1.uniform "material.shininess" = some (.floatVal 20.0) ∧
      sm1.uniform "objectColor" = none := by
  have hex : ∃ m ∈ preparedScene.m_objectMaterials, m.tag = "wood" :=
    ⟨preparedScene.m_objectMaterials[4], List.getElem_mem preparedScene_length,
      preparedScene_wood_at⟩
  refine ⟨rfl, hex, ?_⟩
  obtain ⟨i, entry, sm1, hentry, htag, hmin, hset, _, _, _, _, hshine, hother, _⟩ :=
    SetShaderMaterial_writes_first_match preparedScene { uniforms := fun _ => none } "wood"
      zeroMaterial rfl hex
  have hi : i = 4 := by
    have hle : ¬ 4 < i := fun hlt =>
      hmin 4 _ hlt (List.getElem?_eq_getElem preparedScene_length) preparedScene_wood_at
    have hge : ¬ i < 4 := by
      intro hlt
      have hilen : i < preparedScene.m_objectMaterials.length :=
        lt_trans hlt preparedScene_length
      rw [List.getElem?_eq_getElem hilen] at hentry
      have := preparedScene_wood_first i hilen hlt
      rw [Option.some.inj hentry] at this
      exact this htag
    omega
  subst hi
  rw [List.getElem?_eq_getElem preparedScene_length] at hentry
  refine ⟨sm1, hset, ?_, ?_⟩
  · rw [hshine, ← Option.some.inj hentry]
    rfl
  · rw [hother "objectColor" (by decide) (by decide) (by decide) (by decide) (by decide)]
    rfl

/-! ## Claims on the rendering sequence -/

theorem drawnMeshes_RenderScene :
    drawnMeshes RenderScene
      = [.Plane, .Cylinder, .Cylinder, .TaperedCylinder, .Cone, .Cylinder, .HalfTorus,
          .Cylinder, .Box, .Cylinder, .Cylinder, .Cylinder, .Cylinder, .Cylinder, .Cylinder,
          .Cylinder, .Cylinder] := by
  rfl

theorem textureTags_RenderScene :
    textureTags RenderScene = ["sharpie", "starbucks", "ruler"] := by
  rfl

theorem materialTags_RenderScene :
    materialTags RenderScene
      = ["leather", "plastic", "plastic", "plastic", "felt_wool", "glass", "glass", "wood",
          "leather", "leather", "leather", "leather", "matte", "matte", "matte", "metal"] := by
  rfl

/-- C14 (evaluation of the code): `RenderScene` issues 17 draw calls. All of
them but the eighth are preceded by exactly `SetTransformations`, a
shading-mode call and `SetShaderMaterial`. The eighth, the third draw of
`RenderCup`, is preceded by `SetTransformations` and `SetShaderColor` only:
no `SetShaderMaterial` is issued for it, and the material in effect is the
"glass" set for the draw before. -/
theorem RenderScene_cup_lid_without_material :
    (drawSegments RenderScene).map (fun seg => isFullChain seg.1)
      = [true, true, true, true, true, true, true, false, true, true, true, true, true, true,
          true, true, true] ∧
    (drawSegments RenderCup).map (fun seg => isFullChain seg.1) = [true, true, false] ∧
    (drawSegments RenderScene)[7]?
      = some ([.transform ⟨2.6, 0.1, 1.0⟩ 0.0 0.0 0.0 ⟨-6.2, 5.5, 0.8⟩, .color 1 1 1 1],
          .Cylinder) ∧
    lastMaterial [.transform ⟨2.6, 0.1, 1.0⟩ 0.0 0.0 0.0 ⟨-6.2, 5.5, 0.8⟩, .color 1 1 1 1]
      = none ∧
    (RenderScene.take 30).length = 30 ∧
    RenderScene[30]? = some (.draw .Cylinder) ∧
    drawnMeshes (RenderScene.take 30)
      = [.Plane, .Cylinder, .Cylinder, .TaperedCylinder, .Cone, .Cylinder, .HalfTorus] ∧
    lastMaterial (RenderScene.take 30) = some "glass" := by
  refine ⟨rfl, rfl, rfl, rfl, rfl, rfl, rfl, rfl⟩

theorem PrepareScene_loaded (stbi_load : String → Option DecodedImage)
    (handle0 handle1 handle2 : Nat) (sm sm1 : SceneManager ℚ) (m m1 : ShapeMeshes)
    (h : PrepareScene stbi_load handle0 handle1 handle2 sm m = some (sm1, m1)) :
    m1.loaded = m.loaded ++ [.Plane, .Cone, .Cylinder, .TaperedCylinder, .Torus, .Box] := by
  unfold PrepareScene at h
  cases hL : LoadSceneTextures stbi_load handle0 handle1 handle2 sm with
  | none => simp [hL] at h
  | some smL =>
    cases hS : SetupSceneLights (DefineObjectMaterials smL) with
    | none => simp [hL, hS] at h
    | some smS =>
      simp [hL, hS] at h
      rw [← h.2]
      simp [ShapeMeshes.LoadMesh]

theorem PrepareScene_emptyScene_isSome :
    (PrepareScene sceneDecoder 1 2 3 emptyScene { loaded := [] }).isSome = true := by
  rfl

/-- C15 (as amended): after `PrepareScene` the loads requested are those of
the plane, cone, cylinder, tapered cylinder, torus and box, added to the
earlier ones, and every shape that `RenderScene` draws is one of the shapes
whose load has been requested or the half torus; the half torus is drawn by
`RenderCup`. -/
theorem RenderScene_draws_loaded_or_half_torus (stbi_load : String → Option DecodedImage)
    (handle0 handle1 handle2 : Nat) (sm sm1 : SceneManager ℚ) (m m1 : ShapeMeshes)
    (hprep : PrepareScene stbi_load handle0 handle1 handle2 sm m = some (sm1, m1)) :
    m1.loaded = m.loaded ++ [.Plane, .Cone, .Cylinder, .TaperedCylinder, .Torus, .Box] ∧
    (∀ shape ∈ drawnMeshes RenderScene, shape ∈ m1.loaded ∨ shape = .HalfTorus) ∧
    Mesh.HalfTorus ∈ drawnMeshes RenderCup := by
  have hloaded := PrepareScene_loaded stbi_load handle0 handle1 handle2 sm sm1 m m1 hprep
  refine ⟨hloaded, ?_, by decide⟩
  intro shape hshape
  rw [hloaded]
  rw [drawnMeshes_RenderScene] at hshape
  cases shape <;> simp at hshape ⊢

/-- Witness for C15 (as amended): `PrepareScene` on `emptyScene` with a
fresh mesh object succeeds, and its result satisfies the statement. -/
theorem RenderScene_draws_loaded_or_half_torus_witness :
    ∃ (sm1 : SceneManager ℚ) (m1 : ShapeMeshes),
      PrepareScene sceneDecoder 1 2 3 emptyScene { loaded := [] } = some (sm1, m1) ∧
      m1.loaded = [.Plane, .Cone, .Cylinder, .TaperedCylinder, .Torus, .Box] ∧
      ∀ shape ∈ drawnMeshes RenderScene, shape ∈ m1.loaded ∨ shape = .HalfTorus := by
  obtain ⟨r, hr⟩ := Option.isSome_iff_exists.mp PrepareScene_emptyScene_isSome
  obtain ⟨h1, h2, _⟩ :=
    RenderScene_draws_loaded_or_half_torus sceneDecoder 1 2 3 emptyScene r.1 { loaded := [] }
      r.2 hr
  exact ⟨r.1, r.2, hr, by simpa using h1, h2⟩

/-- C15 (counterexample): after `PrepareScene` on `emptyScene` with a fresh
mesh object, `RenderScene` draws the half torus, whose load has not been
requested, so not every drawn shape is among the loaded ones. -/
theorem RenderScene_draws_unloaded_half_torus :
    ∃ (sm1 : SceneManager ℚ) (m1 : ShapeMeshes),
      PrepareScene sceneDecoder 1 2 3 emptyScene { loaded := [] } = some (sm1, m1) ∧
      Mesh.HalfTorus ∈ drawnMeshes RenderScene ∧ Mesh.HalfTorus ∉ m1.loaded ∧
      ¬ ∀ shape ∈ drawnMeshes RenderScene, shape ∈ m1.loaded := by
  obtain ⟨r, hr⟩ := Option.isSome_iff_exists.mp PrepareScene_emptyScene_isSome
  have hloaded := PrepareScene_loaded sceneDecoder 1 2 3 emptyScene r.1 { loaded := [] } r.2 hr
  have hdrawn : Mesh.HalfTorus ∈ drawnMeshes RenderScene := by
    rw [drawnMeshes_RenderScene]; decide
  have hnot : Mesh.HalfTorus ∉ r.2.loaded := by
    rw [hloaded]; decide
  exact ⟨r.1, r.2, hr, hdrawn, hnot, fun hall => hnot (hall _ hdrawn)⟩

/-! ## Claim on the tags used while rendering -/

theorem DefineObjectMaterials_catalog (sm : SceneManager ℚ) :
    (DefineObjectMaterials sm).m_objectMaterials
      = sm.m_objectMaterials ++ preparedScene.m_objectMaterials := by
  rfl

theorem preparedScene_has_tags :
    ∀ tag ∈ ["plastic", "felt_wool", "leather", "glass", "wood", "matte", "metal"],
      ∃ m ∈ preparedScene.m_objectMaterials, m.tag = tag := by
  decide

theorem LoadSceneTextures_ok (stbi_load : String → Option DecodedImage)
    (handle0 handle1 handle2 : Nat) (shader : Option (ShaderManager α))
    (textures : List TEXTURE_INFO) (materials : List (OBJECT_MATERIAL α))
    (hcap : 3 ≤ textures.length)
    (hdec : ∀ filename ∈ sceneTextureFiles, ∃ image, stbi_load filename = some image ∧
      (image.colorChannels = 3 ∨ image.colorChannels = 4)) :
    LoadSceneTextures stbi_load handle0 handle1 handle2
        { m_pShaderManager := shader, m_textureIDs := textures, m_loadedTextures := 0,
          m_objectMaterials := materials }
      = some
        { m_pShaderManager := shader
          m_textureIDs := ((textures.set 0 { tag := "sharpie", ID := handle0 }).set 1
            { tag := "starbucks", ID := handle1 }).set 2 { tag := "ruler", ID := handle2 }
          m_loadedTextures := 3
          m_objectMaterials := materials } := by
  obtain ⟨i0, hi0, hc0⟩ := hdec _ (List.mem_cons_self _ _)
  obtain ⟨i1, hi1, hc1⟩ := hdec _ (List.mem_cons_of_mem _ (List.mem_cons_self _ _))
  obtain ⟨i2, hi2, hc2⟩ :=
    hdec _ (List.mem_cons_of_mem _ (List.mem_cons_of_mem _ (List.mem_cons_self _ _)))
  have e0 := CreateGLTexture_ok stbi_load handle0
    ({ m_pShaderManager := shader, m_textureIDs := textures, m_loadedTextures := 0,
       m_objectMaterials := materials } : SceneManager α) _ "sharpie" i0 hi0 hc0
    (show 0 < textures.length by omega)
  have e1 := CreateGLTexture_ok stbi_load handle1
    ({ m_pShaderManager := shader
       m_textureIDs := textures.set 0 { tag := "sharpie", ID := handle0 }
       m_loadedTextures := 1, m_objectMaterials := materials } : SceneManager α) _ "starbucks"
    i1 hi1 hc1 (show 1 < (textures.set 0 _).length by rw [List.length_set]; omega)
  have e2 := CreateGLTexture_ok stbi_load handle2
    ({ m_pShaderManager := shader
       m_textureIDs := (textures.set 0 { tag := "sharpie", ID := handle0 }).set 1
         { tag := "starbucks", ID := handle1 }
       m_loadedTextures := 2, m_objectMaterials := materials } : SceneManager α) _ "ruler"
    i2 hi2 hc2
    (show 2 < ((textures.set 0 _).set 1 _).length by
      rw [List.length_set, List.length_set]; omega)
  unfold LoadSceneTextures
  rw [e0]
  simp only [Option.bind_eq_bind, Option.some_bind]
  rw [e1]
  simp only [Option.some_bind]
  rw [e2]
  rfl

theorem loaded_getD (textures : List TEXTURE_INFO) (a b c : TEXTURE_INFO)
    (hcap : 3 ≤ textures.length) :
    (((textures.set 0 a).set 1 b).set 2 c).getD 0 default = a ∧
    (((textures.set 0 a).set 1 b).set 2 c).getD 1 default = b ∧
    (((textures.set 0 a).set 1 b).set 2 c).getD 2 default = c := by
  refine ⟨?_, ?_, ?_⟩
  · rw [getD_set_ne _ _ _ _ _ (by omega), getD_set_ne _ _ _ _ _ (by omega),
      getD_set_eq _ _ _ _ (by omega)]
  · rw [getD_set_ne _ _ _ _ _ (by omega),
      getD_set_eq _ _ _ _ (by rw [List.length_set]; omega)]
  · rw [getD_set_eq _ _ _ _ (by rw [List.length_set, List.length_set]; omega)]

/-- C16: on a registry that is empty and has room for three entries, with
the three image files decoding to 3 or 4 channels, `LoadSceneTextures`
succeeds; after it and `DefineObjectMaterials`, the tags that `RenderScene`
passes to `SetShaderTexture` are "sharpie", "starbucks" and "ruler" and
resolve to the slots 0, 1 and 2 (none to `-1`), and every tag that
`RenderScene` passes to `SetShaderMaterial` is one of plastic, felt_wool,
leather, glass, wood, matte and metal and is the tag of a catalog entry. -/
theorem RenderScene_tags_resolve (stbi_load : String → Option DecodedImage)
    (handle0 handle1 handle2 : Nat) (sm : SceneManager ℚ)
    (hempty : sm.m_loadedTextures = 0) (hcap : 3 ≤ sm.m_textureIDs.length)
    (hdec : ∀ filename ∈ sceneTextureFiles, ∃ image, stbi_load filename = some image ∧
      (image.colorChannels = 3 ∨ image.colorChannels = 4)) :
    ∃ sm1 : SceneManager ℚ,
      LoadSceneTextures stbi_load handle0 handle1 handle2 sm = some sm1 ∧
      sm1.m_loadedTextures = 3 ∧
      textureTags RenderScene = ["sharpie", "starbucks", "ruler"] ∧
      FindTextureSlot (DefineObjectMaterials sm1) "sharpie" = 0 ∧
      FindTextureSlot (DefineObjectMaterials sm1) "starbucks" = 1 ∧
      FindTextureSlot (DefineObjectMaterials sm1) "ruler" = 2 ∧
      (∀ tag ∈ textureTags RenderScene, FindTextureSlot (DefineObjectMaterials sm1) tag ≠ -1) ∧
      (∀ tag ∈ materialTags RenderScene,
        tag ∈ ["plastic", "felt_wool", "leather", "glass", "wood", "matte", "metal"] ∧
        ∃ m ∈ (DefineObjectMaterials sm1).m_objectMaterials, m.tag = tag) := by
  obtain ⟨shader, textures, n, materials⟩ := sm
  simp only at hempty hcap
  subst hempty
  obtain ⟨g0, g1, g2⟩ := loaded_getD textures { tag := "sharpie", ID := handle0 }
    { tag := "starbucks", ID := handle1 } { tag := "ruler", ID := handle2 } hcap
  have s0 : FindTextureSlot (DefineObjectMaterials
      ({ m_pShaderManager := shader
         m_textureIDs := ((textures.set 0 { tag := "sharpie", ID := handle0 }).set 1
            { tag := "starbucks", ID := handle1 }).set 2 { tag := "ruler", ID := handle2 }
         m_loadedTextures := 3
         m_objectMaterials := materials } : SceneManager ℚ)) "sharpie" = ((0 : Nat) : Int) := by
    refine FindTextureSlot_of_first _ _ 0 (show 0 < 3 by omega) ?_ ?_
    · show ((((textures.set 0 _).set 1 _).set 2 _).getD 0 default).tag = "sharpie"
      rw [g0]
    · intro j hj
      omega
  have s1 : FindTextureSlot (DefineObjectMaterials
      ({ m_pShaderManager := shader
         m_textureIDs := ((textures.set 0 { tag := "sharpie", ID := handle0 }).set 1
            { tag := "starbucks", ID := handle1 }).set 2 { tag := "ruler", ID := handle2 }
         m_loadedTextures := 3
         m_objectMaterials := materials } : SceneManager ℚ)) "starbucks"
        = ((1 : Nat) : Int) := by
    refine FindTextureSlot_of_first _ _ 1 (show 1 < 3 by omega) ?_ ?_
    · show ((((textures.set 0 _).set 1 _).set 2 _).getD 1 default).tag = "starbucks"
      rw [g1]
    · intro j hj
      have hj0 : j = 0 := by omega
      subst hj0
      show ((((textures.set 0 _).set 1 _).set 2 _).getD 0 default).tag ≠ "starbucks"
      rw [g0]
      show ("sharpie" : String) ≠ "starbucks"
      decide
  have s2 : FindTextureSlot (DefineObjectMaterials
      ({ m_pShaderManager := shader
         m_textureIDs := ((textures.set 0 { tag := "sharpie", ID := handle0 }).set 1
            { tag := "starbucks", ID := handle1 }).set 2 { tag := "ruler", ID := handle2 }
         m_loadedTextures := 3
         m_objectMaterials := materials } : SceneManager ℚ)) "ruler" = ((2 : Nat) : Int) := by
    refine FindTextureSlot_of_first _ _ 2 (show 2 < 3 by omega) ?_ ?_
    · show ((((textures.set 0 _).set 1 _).set 2 _).getD 2 default).tag = "ruler"
      rw [g2]
    · intro j hj
      have hj01 : j = 0 ∨ j = 1 := by omega
      rcases hj01 with h | h
      · subst h
        show ((((textures.set 0 _).set 1 _).set 2 _).getD 0 default).tag ≠ "ruler"
        rw [g0]
        show ("sharpie" : String) ≠ "ruler"
        decide
      · subst h
        show ((((textures.set 0 _).set 1 _).set 2 _).getD 1 default).tag ≠ "ruler"
        rw [g1]
        show ("starbucks" : String) ≠ "ruler"
        decide
  refine ⟨_, LoadSceneTextures_ok stbi_load handle0 handle1 handle2 shader textures materials
    hcap hdec, rfl, textureTags_RenderScene, s0, s1, s2, ?_, ?_⟩
  · intro tag htag
    rw [textureTags_RenderScene] at htag
    simp only [List.mem_cons, List.mem_singleton, List.not_mem_nil, or_false] at htag
    rcases htag with h | h | h
    · subst h; rw [s0]; decide
    · subst h; rw [s1]; decide
    · subst h; rw [s2]; decide
  · intro tag htag
    rw [materialTags_RenderScene] at htag
    have hcases : tag = "plastic" ∨ tag = "felt_wool" ∨ tag = "leather" ∨ tag = "glass" ∨
        tag = "wood" ∨ tag = "matte" ∨ tag = "metal" := by
      simp only [List.mem_cons, List.mem_singleton, List.not_mem_nil, or_false] at htag
      tauto
    have hmem : tag ∈ ["plastic", "felt_wool", "leather", "glass", "wood", "matte", "metal"] := by
      simpa using hcases
    obtain ⟨m, hm, ht⟩ := preparedScene_has_tags tag hmem
    refine ⟨hmem, m, ?_, ht⟩
    rw [DefineObjectMaterials_catalog]
    exact List.mem_append_right _ hm

/-- Witness for C16 on `emptyScene` (capacity 16, nothing loaded) with a
decoder for which every file is a four-channel image. -/
theorem RenderScene_tags_resolve_witness :
    emptyScene.m_loadedTextures = 0 ∧ 3 ≤ emptyScene.m_textureIDs.length ∧
    ∃ sm1 : SceneManager ℚ,
      LoadSceneTextures sceneDecoder 1 2 3 emptyScene = some sm1 ∧
      FindTextureSlot (DefineObjectMaterials sm1) "sharpie" = 0 ∧
      FindTextureSlot (DefineObjectMaterials sm1) "starbucks" = 1 ∧
      FindTextureSlot (DefineObjectMaterials sm1) "ruler" = 2 := by
  obtain ⟨sm1, h1, _, _, h2, h3, h4, _⟩ :=
    RenderScene_tags_resolve sceneDecoder 1 2 3 emptyScene rfl (by decide)
      (fun _ _ => ⟨_, rfl, Or.inr rfl⟩)
  exact ⟨rfl, by decide, sm1, h1, h2, h3, h4⟩

end SceneMod
